import Mathlib

/-!
Verification development for the Homevolt integration.

Shallow embedding of:
  * `custom_components/homevolt/models.py` — the response decoders
    (`X.from_dict`), modelled as total Lean functions over "raw payload"
    records whose fields are `Option`-valued (a key absent from the raw
    JSON dict is `none`; `data.get(k, default)` becomes `Option.getD`).
    Python `int` fields become `Int`, `float` fields become `Rat`
    (decode is pure pass-through, so exactness of JSON numbers is
    preserved), `str` becomes `String`, `bool` becomes `Bool`.
  * `custom_components/homevolt/api.py` — the retrying `_request` loop,
    modelled over an oracle giving the outcome of each HTTP attempt.
  * `custom_components/homevolt/coordinator.py` — the tiered-polling
    `_async_update_data` tick, modelled as a pure step function over an
    environment of fetch oracles (one per endpoint, per tick), recording
    which endpoints were fetched, the events fired, and the outcome.
-/

namespace Homevolt

/-! ## Response decoders (models.py) -/

/-- `EmsInfo` dataclass (models.py). -/
structure EmsInfo where
  protocol_version : Int := 0
  fw_version : String := ""
  rated_capacity : Int := 0
  rated_power : Int := 0
  deriving DecidableEq

/-- Raw payload for `EmsInfo.from_dict`: each key optionally present. -/
structure EmsInfoRaw where
  protocol_version : Option Int := none
  fw_version : Option String := none
  rated_capacity : Option Int := none
  rated_power : Option Int := none
  deriving DecidableEq

/-- `EmsInfo.from_dict` (models.py). -/
def EmsInfo.from_dict (data : EmsInfoRaw) : EmsInfo where
  protocol_version := data.protocol_version.getD 0
  fw_version := data.fw_version.getD ""
  rated_capacity := data.rated_capacity.getD 0
  rated_power := data.rated_power.getD 0

/-- `BmsInfo` dataclass (models.py). -/
structure BmsInfo where
  fw_version : String := ""
  serial_number : String := ""
  rated_cap : Int := 0
  id : Int := 0
  deriving DecidableEq

/-- Raw payload for `BmsInfo.from_dict`. -/
structure BmsInfoRaw where
  fw_version : Option String := none
  serial_number : Option String := none
  rated_cap : Option Int := none
  id : Option Int := none
  deriving DecidableEq

/-- `BmsInfo.from_dict` (models.py). -/
def BmsInfo.from_dict (data : BmsInfoRaw) : BmsInfo where
  fw_version := data.fw_version.getD ""
  serial_number := data.serial_number.getD ""
  rated_cap := data.rated_cap.getD 0
  id := data.id.getD 0

/-- `InvInfo` dataclass (models.py). -/
structure InvInfo where
  fw_version : String := ""
  serial_number : String := ""
  deriving DecidableEq

/-- Raw payload for `InvInfo.from_dict`. -/
structure InvInfoRaw where
  fw_version : Option String := none
  serial_number : Option String := none
  deriving DecidableEq

/-- `InvInfo.from_dict` (models.py). -/
def InvInfo.from_dict (data : InvInfoRaw) : InvInfo where
  fw_version := data.fw_version.getD ""
  serial_number := data.serial_number.getD ""

/-- `EmsConfig` dataclass (models.py). -/
structure EmsConfig where
  grid_code_preset : Int := 0
  grid_code_preset_str : String := ""
  control_timeout : Bool := false
  deriving DecidableEq

/-- Raw payload for `EmsConfig.from_dict`. -/
structure EmsConfigRaw where
  grid_code_preset : Option Int := none
  grid_code_preset_str : Option String := none
  control_timeout : Option Bool := none
  deriving DecidableEq

/-- `EmsConfig.from_dict` (models.py). -/
def EmsConfig.from_dict (data : EmsConfigRaw) : EmsConfig where
  grid_code_preset := data.grid_code_preset.getD 0
  grid_code_preset_str := data.grid_code_preset_str.getD ""
  control_timeout := data.control_timeout.getD false

/-- `EmsControl` dataclass (models.py). -/
structure EmsControl where
  mode_sel : Int := 0
  mode_sel_str : String := ""
  pwr_ref : Int := 0
  deriving DecidableEq

/-- Raw payload for `EmsControl.from_dict`. -/
structure EmsControlRaw where
  mode_sel : Option Int := none
  mode_sel_str : Option String := none
  pwr_ref : Option Int := none
  deriving DecidableEq

/-- `EmsControl.from_dict` (models.py). -/
def EmsControl.from_dict (data : EmsControlRaw) : EmsControl where
  mode_sel := data.mode_sel.getD 0
  mode_sel_str := data.mode_sel_str.getD ""
  pwr_ref := data.pwr_ref.getD 0

/-- `EmsData` dataclass (models.py): real-time EMS data. -/
structure EmsData where
  timestamp_ms : Int := 0
  state : Int := 0
  state_str : String := ""
  info : Int := 0
  info_str : List String := []
  warning : Int := 0
  warning_str : List String := []
  alarm : Int := 0
  alarm_str : List String := []
  phase_angle : Int := 0
  frequency : Int := 0
  phase_seq : Int := 0
  power : Int := 0
  apparent_power : Int := 0
  reactive_power : Int := 0
  energy_produced : Int := 0
  energy_consumed : Int := 0
  sys_temp : Int := 0
  avail_cap : Int := 0
  freq_res_state : Int := 0
  soc_avg : Int := 0
  deriving DecidableEq

/-- Raw payload for `EmsData.from_dict`. -/
structure EmsDataRaw where
  timestamp_ms : Option Int := none
  state : Option Int := none
  state_str : Option String := none
  info : Option Int := none
  info_str : Option (List String) := none
  warning : Option Int := none
  warning_str : Option (List String) := none
  alarm : Option Int := none
  alarm_str : Option (List String) := none
  phase_angle : Option Int := none
  frequency : Option Int := none
  phase_seq : Option Int := none
  power : Option Int := none
  apparent_power : Option Int := none
  reactive_power : Option Int := none
  energy_produced : Option Int := none
  energy_consumed : Option Int := none
  sys_temp : Option Int := none
  avail_cap : Option Int := none
  freq_res_state : Option Int := none
  soc_avg : Option Int := none
  deriving DecidableEq

/-- `EmsData.from_dict` (models.py lines 121-145). -/
def EmsData.from_dict (data : EmsDataRaw) : EmsData where
  timestamp_ms := data.timestamp_ms.getD 0
  state := data.state.getD 0
  state_str := data.state_str.getD ""
  info := data.info.getD 0
  info_str := data.info_str.getD []
  warning := data.warning.getD 0
  warning_str := data.warning_str.getD []
  alarm := data.alarm.getD 0
  alarm_str := data.alarm_str.getD []
  phase_angle := data.phase_angle.getD 0
  frequency := data.frequency.getD 0
  phase_seq := data.phase_seq.getD 0
  power := data.power.getD 0
  apparent_power := data.apparent_power.getD 0
  reactive_power := data.reactive_power.getD 0
  energy_produced := data.energy_produced.getD 0
  energy_consumed := data.energy_consumed.getD 0
  sys_temp := data.sys_temp.getD 0
  avail_cap := data.avail_cap.getD 0
  freq_res_state := data.freq_res_state.getD 0
  soc_avg := data.soc_avg.getD 0

/-- `BmsData` dataclass (models.py). -/
structure BmsData where
  energy_avail : Int := 0
  cycle_count : Int := 0
  soc : Int := 0
  state : Int := 0
  state_str : String := ""
  alarm : Int := 0
  alarm_str : List String := []
  tmin : Int := 0
  tmax : Int := 0
  deriving DecidableEq

/-- Raw payload for `BmsData.from_dict`. -/
structure BmsDataRaw where
  energy_avail : Option Int := none
  cycle_count : Option Int := none
  soc : Option Int := none
  state : Option Int := none
  state_str : Option String := none
  alarm : Option Int := none
  alarm_str : Option (List String) := none
  tmin : Option Int := none
  tmax : Option Int := none
  deriving DecidableEq

/-- `BmsData.from_dict` (models.py). -/
def BmsData.from_dict (data : BmsDataRaw) : BmsData where
  energy_avail := data.energy_avail.getD 0
  cycle_count := data.cycle_count.getD 0
  soc := data.soc.getD 0
  state := data.state.getD 0
  state_str := data.state_str.getD ""
  alarm := data.alarm.getD 0
  alarm_str := data.alarm_str.getD []
  tmin := data.tmin.getD 0
  tmax := data.tmax.getD 0

/-- `EmsPrediction` dataclass (models.py). -/
structure EmsPrediction where
  avail_ch_pwr : Int := 0
  avail_di_pwr : Int := 0
  avail_ch_energy : Int := 0
  avail_di_energy : Int := 0
  avail_inv_ch_pwr : Int := 0
  avail_inv_di_pwr : Int := 0
  avail_group_fuse_ch_pwr : Int := 0
  avail_group_fuse_di_pwr : Int := 0
  deriving DecidableEq

/-- Raw payload for `EmsPrediction.from_dict`. -/
structure EmsPredictionRaw where
  avail_ch_pwr : Option Int := none
  avail_di_pwr : Option Int := none
  avail_ch_energy : Option Int := none
  avail_di_energy : Option Int := none
  avail_inv_ch_pwr : Option Int := none
  avail_inv_di_pwr : Option Int := none
  avail_group_fuse_ch_pwr : Option Int := none
  avail_group_fuse_di_pwr : Option Int := none
  deriving DecidableEq

/-- `EmsPrediction.from_dict` (models.py). -/
def EmsPrediction.from_dict (data : EmsPredictionRaw) : EmsPrediction where
  avail_ch_pwr := data.avail_ch_pwr.getD 0
  avail_di_pwr := data.avail_di_pwr.getD 0
  avail_ch_energy := data.avail_ch_energy.getD 0
  avail_di_energy := data.avail_di_energy.getD 0
  avail_inv_ch_pwr := data.avail_inv_ch_pwr.getD 0
  avail_inv_di_pwr := data.avail_inv_di_pwr.getD 0
  avail_group_fuse_ch_pwr := data.avail_group_fuse_ch_pwr.getD 0
  avail_group_fuse_di_pwr := data.avail_group_fuse_di_pwr.getD 0

/-- `EmsVoltage` dataclass (models.py). -/
structure EmsVoltage where
  l1 : Int := 0
  l2 : Int := 0
  l3 : Int := 0
  l1_l2 : Int := 0
  l2_l3 : Int := 0
  l3_l1 : Int := 0
  deriving DecidableEq

/-- Raw payload for `EmsVoltage.from_dict`. -/
structure EmsVoltageRaw where
  l1 : Option Int := none
  l2 : Option Int := none
  l3 : Option Int := none
  l1_l2 : Option Int := none
  l2_l3 : Option Int := none
  l3_l1 : Option Int := none
  deriving DecidableEq

/-- `EmsVoltage.from_dict` (models.py). -/
def EmsVoltage.from_dict (data : EmsVoltageRaw) : EmsVoltage where
  l1 := data.l1.getD 0
  l2 := data.l2.getD 0
  l3 := data.l3.getD 0
  l1_l2 := data.l1_l2.getD 0
  l2_l3 := data.l2_l3.getD 0
  l3_l1 := data.l3_l1.getD 0

/-- `EmsCurrent` dataclass (models.py). -/
structure EmsCurrent where
  l1 : Int := 0
  l2 : Int := 0
  l3 : Int := 0
  deriving DecidableEq

/-- Raw payload for `EmsCurrent.from_dict`. -/
structure EmsCurrentRaw where
  l1 : Option Int := none
  l2 : Option Int := none
  l3 : Option Int := none
  deriving DecidableEq

/-- `EmsCurrent.from_dict` (models.py). -/
def EmsCurrent.from_dict (data : EmsCurrentRaw) : EmsCurrent where
  l1 := data.l1.getD 0
  l2 := data.l2.getD 0
  l3 := data.l3.getD 0

/-- `EmsAggregate` dataclass (models.py); `float` fields become `Rat`. -/
structure EmsAggregate where
  imported_kwh : Rat := 0
  exported_kwh : Rat := 0
  deriving DecidableEq

/-- Raw payload for `EmsAggregate.from_dict`. -/
structure EmsAggregateRaw where
  imported_kwh : Option Rat := none
  exported_kwh : Option Rat := none
  deriving DecidableEq

/-- `EmsAggregate.from_dict` (models.py). -/
def EmsAggregate.from_dict (data : EmsAggregateRaw) : EmsAggregate where
  imported_kwh := data.imported_kwh.getD 0
  exported_kwh := data.exported_kwh.getD 0

/-- `EmsDevice` dataclass (models.py): one EMS device with nested records. -/
structure EmsDevice where
  ecu_id : Int := 0
  ecu_host : String := ""
  ecu_version : String := ""
  error : Int := 0
  error_str : String := ""
  op_state : Int := 0
  op_state_str : String := ""
  ems_info : EmsInfo := {}
  bms_info : List BmsInfo := []
  inv_info : InvInfo := {}
  ems_config : EmsConfig := {}
  ems_control : EmsControl := {}
  ems_data : EmsData := {}
  bms_data : List BmsData := []
  ems_prediction : EmsPrediction := {}
  ems_voltage : EmsVoltage := {}
  ems_current : EmsCurrent := {}
  ems_aggregate : EmsAggregate := {}
  error_cnt : Int := 0
  deriving DecidableEq

/-- Raw payload for `EmsDevice.from_dict`; nested keys carry nested raws. -/
structure EmsDeviceRaw where
  ecu_id : Option Int := none
  ecu_host : Option String := none
  ecu_version : Option String := none
  error : Option Int := none
  error_str : Option String := none
  op_state : Option Int := none
  op_state_str : Option String := none
  ems_info : Option EmsInfoRaw := none
  bms_info : Option (List BmsInfoRaw) := none
  inv_info : Option InvInfoRaw := none
  ems_config : Option EmsConfigRaw := none
  ems_control : Option EmsControlRaw := none
  ems_data : Option EmsDataRaw := none
  bms_data : Option (List BmsDataRaw) := none
  ems_prediction : Option EmsPredictionRaw := none
  ems_voltage : Option EmsVoltageRaw := none
  ems_current : Option EmsCurrentRaw := none
  ems_aggregate : Option EmsAggregateRaw := none
  error_cnt : Option Int := none
  deriving DecidableEq

/-- `EmsDevice.from_dict` (models.py): nested structures delegate to the
nested record's own decoder, defaulting to an empty dict when absent. -/
def EmsDevice.from_dict (data : EmsDeviceRaw) : EmsDevice where
  ecu_id := data.ecu_id.getD 0
  ecu_host := data.ecu_host.getD ""
  ecu_version := data.ecu_version.getD ""
  error := data.error.getD 0
  error_str := data.error_str.getD ""
  op_state := data.op_state.getD 0
  op_state_str := data.op_state_str.getD ""
  ems_info := EmsInfo.from_dict (data.ems_info.getD {})
  bms_info := (data.bms_info.getD []).map BmsInfo.from_dict
  inv_info := InvInfo.from_dict (data.inv_info.getD {})
  ems_config := EmsConfig.from_dict (data.ems_config.getD {})
  ems_control := EmsControl.from_dict (data.ems_control.getD {})
  ems_data := EmsData.from_dict (data.ems_data.getD {})
  bms_data := (data.bms_data.getD []).map BmsData.from_dict
  ems_prediction := EmsPrediction.from_dict (data.ems_prediction.getD {})
  ems_voltage := EmsVoltage.from_dict (data.ems_voltage.getD {})
  ems_current := EmsCurrent.from_dict (data.ems_current.getD {})
  ems_aggregate := EmsAggregate.from_dict (data.ems_aggregate.getD {})
  error_cnt := data.error_cnt.getD 0

/-- `PhaseData` dataclass (models.py); `float` fields become `Rat`. -/
structure PhaseData where
  voltage : Rat := 0
  amp : Rat := 0
  power : Rat := 0
  pf : Rat := 0
  deriving DecidableEq

/-- Raw payload for `PhaseData.from_dict`. -/
structure PhaseDataRaw where
  voltage : Option Rat := none
  amp : Option Rat := none
  power : Option Rat := none
  pf : Option Rat := none
  deriving DecidableEq

/-- `PhaseData.from_dict` (models.py). -/
def PhaseData.from_dict (data : PhaseDataRaw) : PhaseData where
  voltage := data.voltage.getD 0
  amp := data.amp.getD 0
  power := data.power.getD 0
  pf := data.pf.getD 0

/-- `SensorData` dataclass (models.py): CT clamp sensor data. -/
structure SensorData where
  type : String := ""
  node_id : Int := 0
  euid : String := ""
  interface : Int := 0
  available : Bool := false
  rssi : Rat := 0
  average_rssi : Rat := 0
  pdr : Rat := 0
  phase : List PhaseData := []
  frequency : Rat := 0
  total_power : Int := 0
  energy_imported : Rat := 0
  energy_exported : Rat := 0
  timestamp : Int := 0
  timestamp_str : String := ""
  deriving DecidableEq

/-- Raw payload for `SensorData.from_dict`. -/
structure SensorDataRaw where
  type : Option String := none
  node_id : Option Int := none
  euid : Option String := none
  interface : Option Int := none
  available : Option Bool := none
  rssi : Option Rat := none
  average_rssi : Option Rat := none
  pdr : Option Rat := none
  phase : Option (List PhaseDataRaw) := none
  frequency : Option Rat := none
  total_power : Option Int := none
  energy_imported : Option Rat := none
  energy_exported : Option Rat := none
  timestamp : Option Int := none
  timestamp_str : Option String := none
  deriving DecidableEq

/-- `SensorData.from_dict` (models.py). -/
def SensorData.from_dict (data : SensorDataRaw) : SensorData where
  type := data.type.getD ""
  node_id := data.node_id.getD 0
  euid := data.euid.getD ""
  interface := data.interface.getD 0
  available := data.available.getD false
  rssi := data.rssi.getD 0
  average_rssi := data.average_rssi.getD 0
  pdr := data.pdr.getD 0
  phase := (data.phase.getD []).map PhaseData.from_dict
  frequency := data.frequency.getD 0
  total_power := data.total_power.getD 0
  energy_imported := data.energy_imported.getD 0
  energy_exported := data.energy_exported.getD 0
  timestamp := data.timestamp.getD 0
  timestamp_str := data.timestamp_str.getD ""

/-- `HomevoltEmsResponse` dataclass (models.py): top-level `/ems.json`
response. The `type` field decodes the JSON key `$type`. -/
structure HomevoltEmsResponse where
  type : String := ""
  ts : Int := 0
  ems : List EmsDevice := []
  aggregated : EmsDevice := {}
  sensors : List SensorData := []
  deriving DecidableEq

/-- Raw payload for `HomevoltEmsResponse.from_dict`; the `type` field
stands for the JSON key `$type`. -/
structure HomevoltEmsResponseRaw where
  type : Option String := none
  ts : Option Int := none
  ems : Option (List EmsDeviceRaw) := none
  aggregated : Option EmsDeviceRaw := none
  sensors : Option (List SensorDataRaw) := none
  deriving DecidableEq

/-- `HomevoltEmsResponse.from_dict` (models.py lines 378-386). -/
def HomevoltEmsResponse.from_dict (data : HomevoltEmsResponseRaw) : HomevoltEmsResponse where
  type := data.type.getD ""
  ts := data.ts.getD 0
  ems := (data.ems.getD []).map EmsDevice.from_dict
  aggregated := EmsDevice.from_dict (data.aggregated.getD {})
  sensors := (data.sensors.getD []).map SensorData.from_dict

/-- `WifiStatus` dataclass (models.py). -/
structure WifiStatus where
  wifi_mode : String := ""
  ip : String := ""
  ssid : String := ""
  rssi : Int := 0
  connected : Bool := false
  deriving DecidableEq

/-- Raw payload for `WifiStatus.from_dict`. -/
structure WifiStatusRaw where
  wifi_mode : Option String := none
  ip : Option String := none
  ssid : Option String := none
  rssi : Option Int := none
  connected : Option Bool := none
  deriving DecidableEq

/-- `WifiStatus.from_dict` (models.py). -/
def WifiStatus.from_dict (data : WifiStatusRaw) : WifiStatus where
  wifi_mode := data.wifi_mode.getD ""
  ip := data.ip.getD ""
  ssid := data.ssid.getD ""
  rssi := data.rssi.getD 0
  connected := data.connected.getD false

/-- `MqttStatus` dataclass (models.py). -/
structure MqttStatus where
  connected : Bool := false
  subscribed : Bool := false
  deriving DecidableEq

/-- Raw payload for `MqttStatus.from_dict`. -/
structure MqttStatusRaw where
  connected : Option Bool := none
  subscribed : Option Bool := none
  deriving DecidableEq

/-- `MqttStatus.from_dict` (models.py). -/
def MqttStatus.from_dict (data : MqttStatusRaw) : MqttStatus where
  connected := data.connected.getD false
  subscribed := data.subscribed.getD false

/-- `LteStatus` dataclass (models.py). -/
structure LteStatus where
  operator_name : String := ""
  band : String := ""
  rssi_db : Int := 0
  pdp_active : Bool := false
  deriving DecidableEq

/-- Raw payload for `LteStatus.from_dict`. -/
structure LteStatusRaw where
  operator_name : Option String := none
  band : Option String := none
  rssi_db : Option Int := none
  pdp_active : Option Bool := none
  deriving DecidableEq

/-- `LteStatus.from_dict` (models.py). -/
def LteStatus.from_dict (data : LteStatusRaw) : LteStatus where
  operator_name := data.operator_name.getD ""
  band := data.band.getD ""
  rssi_db := data.rssi_db.getD 0
  pdp_active := data.pdp_active.getD false

/-- `FirmwareInfo` dataclass (models.py). -/
structure FirmwareInfo where
  esp : String := ""
  efr : String := ""
  deriving DecidableEq

/-- Raw payload for `FirmwareInfo.from_dict`. -/
structure FirmwareInfoRaw where
  esp : Option String := none
  efr : Option String := none
  deriving DecidableEq

/-- `FirmwareInfo.from_dict` (models.py). -/
def FirmwareInfo.from_dict (data : FirmwareInfoRaw) : FirmwareInfo where
  esp := data.esp.getD ""
  efr := data.efr.getD ""

/-- `HomevoltStatusResponse` dataclass (models.py): `/status.json`. -/
structure HomevoltStatusResponse where
  up_time : Int := 0
  firmware : FirmwareInfo := {}
  wifi_status : WifiStatus := {}
  mqtt_status : MqttStatus := {}
  lte_status : LteStatus := {}
  deriving DecidableEq

/-- Raw payload for `HomevoltStatusResponse.from_dict`. -/
structure HomevoltStatusResponseRaw where
  up_time : Option Int := none
  firmware : Option FirmwareInfoRaw := none
  wifi_status : Option WifiStatusRaw := none
  mqtt_status : Option MqttStatusRaw := none
  lte_status : Option LteStatusRaw := none
  deriving DecidableEq

/-- `HomevoltStatusResponse.from_dict` (models.py). -/
def HomevoltStatusResponse.from_dict (data : HomevoltStatusResponseRaw) : HomevoltStatusResponse where
  up_time := data.up_time.getD 0
  firmware := FirmwareInfo.from_dict (data.firmware.getD {})
  wifi_status := WifiStatus.from_dict (data.wifi_status.getD {})
  mqtt_status := MqttStatus.from_dict (data.mqtt_status.getD {})
  lte_status := LteStatus.from_dict (data.lte_status.getD {})

/-- `ErrorReportEntry` dataclass (models.py): one `/error_report.json` entry. -/
structure ErrorReportEntry where
  sub_system_id : Int := 0
  sub_system_name : String := ""
  error_id : Int := 0
  error_name : String := ""
  activated : String := ""
  message : String := ""
  details : List String := []
  deriving DecidableEq

/-- Raw payload for `ErrorReportEntry.from_dict`. -/
structure ErrorReportEntryRaw where
  sub_system_id : Option Int := none
  sub_system_name : Option String := none
  error_id : Option Int := none
  error_name : Option String := none
  activated : Option String := none
  message : Option String := none
  details : Option (List String) := none
  deriving DecidableEq

/-- `ErrorReportEntry.from_dict` (models.py). -/
def ErrorReportEntry.from_dict (data : ErrorReportEntryRaw) : ErrorReportEntry where
  sub_system_id := data.sub_system_id.getD 0
  sub_system_name := data.sub_system_name.getD ""
  error_id := data.error_id.getD 0
  error_name := data.error_name.getD ""
  activated := data.activated.getD ""
  message := data.message.getD ""
  details := data.details.getD []

/-- Modelled from the spec: node-inventory entry (`NodeInfo`), whose
definition is absent from `src/models.py` although `coordinator.py` and
the tests reference it. Spec §3/§6: node inventory is a list of entries
describing wirelessly connected CT clamp nodes, each with its own node
identifier, identity and firmware. No claim inspects its fields. -/
structure NodeInfo where
  node_id : Int := 0
  euid : String := ""
  fw_version : String := ""
  deriving DecidableEq

/-- Modelled from the spec: per-node metrics record (`NodeMetrics`),
absent from `src/models.py` though referenced by `coordinator.py` and
the tests (which read `battery_voltage`). Spec §4.3: node metrics carry
a 2-cell pack voltage used for battery-level derivation. -/
structure NodeMetrics where
  battery_voltage : Rat := 0
  deriving DecidableEq

/-- Modelled from the spec: one schedule entry, absent from
`src/models.py`. Spec §4.3: an entry is a half-open interval
`[from_ts, to_ts)` with a type and a setpoint. No claim inspects it. -/
structure ScheduleEntry where
  from_ts : Int := 0
  to_ts : Int := 0
  type : String := ""
  setpoint : Int := 0
  deriving DecidableEq

/-- The schedule payload: an ordered timeline of entries (spec §3). -/
abbrev Schedule := List ScheduleEntry

/-! ## Transport client retry loop (api.py `_request`) -/

/-- `MAX_RETRIES` (api.py line 27). -/
def MAX_RETRIES : Nat := 3

/-- `BACKOFF_BASE` in seconds (api.py line 28). -/
def BACKOFF_BASE : Nat := 2

/-- Membership in `RETRY_STATUS_CODES = {502, 503, 504}` (api.py line 26). -/
def isRetryStatus (code : Nat) : Bool :=
  code == 502 || code == 503 || code == 504

/-- What one HTTP attempt yields: either a response carrying a status
code, or a connection-level exception (`aiohttp.ClientConnectionError`
or `asyncio.TimeoutError`). -/
inductive AttemptOutcome where
  | status (code : Nat)
  | connError
  deriving DecidableEq

/-- Terminal result of `_request`. `success k` stands for returning the
decoded JSON of the response received on attempt `k` (0-indexed);
`authError` is `HomevoltAuthError`, `apiError c` is the
`HomevoltApiError("Server error c ...")` raised after retries exhaust,
`connectionError` is `HomevoltConnectionError`, and `httpStatusError c`
is the `aiohttp.ClientResponseError` that `resp.raise_for_status()`
raises (unwrapped) for a status `c ≥ 400` outside the handled set.
`unknownError` is the defensive `raise` after the loop (api.py line 112),
which is unreachable. -/
inductive ReqResult where
  | success (attempt : Nat)
  | authError
  | apiError (code : Nat)
  | connectionError
  | httpStatusError (code : Nat)
  | unknownError
  deriving DecidableEq

/-- What one iteration of the retry loop does: finish with a result
(return or raise), or sleep `s` seconds and continue. -/
inductive StepRes where
  | done (r : ReqResult)
  | retry (s : Nat)
  deriving DecidableEq

/-- Observable behaviour of one `_request` call: the terminal result,
the backoff sleeps issued (in order), and how many attempts were made. -/
structure ReqOut where
  result : ReqResult
  sleeps : List Nat
  attemptsMade : Nat
  deriving DecidableEq

/-- Body of the `for attempt in range(MAX_RETRIES)` loop (api.py lines
85-109) for a single attempt: a 401 raises `HomevoltAuthError` at once;
a status in `RETRY_STATUS_CODES` sleeps `BACKOFF_BASE ** (attempt + 1)`
and continues if attempts remain, else raises the recorded
`HomevoltApiError`; any other status `≥ 400` makes
`resp.raise_for_status()` raise; otherwise the decoded JSON is
returned. A connection-level exception is caught and retried on the
same budget, and raises `HomevoltConnectionError` on the last attempt. -/
def stepFor (outcomes : Nat → AttemptOutcome) (attempt : Nat) : StepRes :=
  match outcomes attempt with
  | .status code =>
    if code == 401 then .done .authError
    else if isRetryStatus code then
      if attempt < MAX_RETRIES - 1 then .retry (BACKOFF_BASE ^ (attempt + 1))
      else .done (.apiError code)
    else if 400 ≤ code then .done (.httpStatusError code)
    else .done (.success attempt)
  | .connError =>
    if attempt < MAX_RETRIES - 1 then .retry (BACKOFF_BASE ^ (attempt + 1))
    else .done .connectionError

/-- Run the retry loop over the remaining attempt indices; an exhausted
list corresponds to falling out of the loop (api.py line 112). -/
def runFrom (outcomes : Nat → AttemptOutcome) : List Nat → ReqOut
  | [] => ⟨.unknownError, [], 0⟩
  | a :: rest =>
    match stepFor outcomes a with
    | .done r => ⟨r, [], 1⟩
    | .retry s =>
      let o := runFrom outcomes rest
      ⟨o.result, s :: o.sleeps, o.attemptsMade + 1⟩

/-- One `_request` call, as a function of the outcome of each attempt. -/
def requestRun (outcomes : Nat → AttemptOutcome) : ReqOut :=
  runFrom outcomes (List.range MAX_RETRIES)

/-- An attempt outcome that the loop retries on: a retryable server
status or a connection-level exception. -/
def retryable : AttemptOutcome → Bool
  | .status code => isRetryStatus code
  | .connError => true

/-! ## Tiered polling coordinator (coordinator.py) -/

/-- `STATUS_POLL_INTERVAL` (const.py line 27). -/
def STATUS_POLL_INTERVAL : Nat := 10

/-- `ERROR_REPORT_POLL_INTERVAL` (const.py line 28). -/
def ERROR_REPORT_POLL_INTERVAL : Nat := 4

/-- `NODES_POLL_INTERVAL` (const.py line 29). -/
def NODES_POLL_INTERVAL : Nat := 10

/-- `SCHEDULE_POLL_INTERVAL` (const.py line 30). -/
def SCHEDULE_POLL_INTERVAL : Nat := 10

/-- The combined snapshot (`HomevoltData`, models.py lines 505-512:
fields `ems`, `status`, `error_report`). The fields `nodes`,
`node_metrics` and `schedule` are modelled from the spec: their
declarations are absent from `src/models.py` although `coordinator.py`
assigns them and the tests read them; spec §3 makes `node_inventory`
and `schedule` null until first fetched and `node_metrics` a map keyed
by node identifier (modelled as an association list). -/
structure HomevoltData where
  ems : HomevoltEmsResponse := {}
  status : Option HomevoltStatusResponse := none
  error_report : List ErrorReportEntry := []
  nodes : Option (List NodeInfo) := none
  node_metrics : List (Int × NodeMetrics) := []
  schedule : Option Schedule := none
  deriving DecidableEq

/-- Exception classes a sub-fetch can raise, as seen by the
coordinator: `HomevoltAuthError`, `HomevoltConnectionError`, a bare
`HomevoltApiError` (retry-exhausted server error), or any other
exception (e.g. the unwrapped `ClientResponseError` from
`raise_for_status`). -/
inductive FetchError where
  | authError
  | connectionError
  | apiError
  | otherError
  deriving DecidableEq

/-- How a tick terminates when it fails: `configEntryAuthFailed` is the
`ConfigEntryAuthFailed` raised for `HomevoltAuthError` (coordinator.py
lines 127-128), `updateFailed` is the `UpdateFailed` raised for
`HomevoltConnectionError` (lines 129-130), and `uncaught e` is any
other exception, which neither handler catches. -/
inductive TickFailure where
  | configEntryAuthFailed
  | updateFailed
  | uncaught (e : FetchError)
  deriving DecidableEq

/-- The two `except` clauses of `_async_update_data`: wrap auth and
connection errors, let everything else propagate. -/
def classifyError : FetchError → TickFailure
  | .authError => .configEntryAuthFailed
  | .connectionError => .updateFailed
  | e => .uncaught e

/-- Environment of fetch oracles: for each tick number (and, for node
metrics, node id), what the corresponding client call returns or
raises. The node-metrics oracle is a function of the tick and the node
id, so one node's failure is independent of every other node's. -/
structure Env where
  emsResult : Nat → Except FetchError HomevoltEmsResponse
  statusResult : Nat → Except FetchError HomevoltStatusResponse
  errorReportResult : Nat → Except FetchError (List ErrorReportEntry)
  nodesResult : Nat → Except FetchError (List NodeInfo)
  nodeMetricsResult : Nat → Int → Except FetchError NodeMetrics
  scheduleResult : Nat → Except FetchError Schedule

/-- An event fired on `hass.bus` (coordinator.py lines 107-125). -/
structure HAEvent where
  name : String
  previous : List String
  current : List String
  deriving DecidableEq

/-- Which endpoints one tick called: a flag per tier plus the list of
node ids for which `async_get_node_metrics` was called, in order. -/
structure FetchLog where
  ems : Bool := false
  status : Bool := false
  error_report : Bool := false
  nodes : Bool := false
  nodeMetricsCalls : List Int := []
  schedule : Bool := false
  deriving DecidableEq

deriving instance DecidableEq for Except

/-- Everything one call of `_async_update_data` produces: the returned
snapshot or the raised failure, the events fired, and the fetch log. -/
structure TickResult where
  outcome : Except TickFailure HomevoltData
  events : List HAEvent
  log : FetchLog
  deriving DecidableEq

/-- The guard `self._poll_count % PERIOD == 0 or self.data is None`
shared by all four periodic tiers. -/
def tierDue (period n : Nat) (dp : Option HomevoltData) : Bool :=
  n % period == 0 || dp.isNone

/-- Status tier (coordinator.py lines 66-70): fetch when due, else
carry the previous snapshot's value (`None` when there is none). -/
def fetchStatus (env : Env) (n : Nat) (dp : Option HomevoltData) :
    Except FetchError (Option HomevoltStatusResponse) :=
  if tierDue STATUS_POLL_INTERVAL n dp then
    (env.statusResult n).map some
  else
    match dp with
    | some d => .ok d.status
    | none => .ok none

/-- Error-report tier (coordinator.py lines 72-76). -/
def fetchErrorReport (env : Env) (n : Nat) (dp : Option HomevoltData) :
    Except FetchError (List ErrorReportEntry) :=
  if tierDue ERROR_REPORT_POLL_INTERVAL n dp then
    env.errorReportResult n
  else
    match dp with
    | some d => .ok d.error_report
    | none => .ok []

/-- The Python truthiness test
`sensor.euid and sensor.euid != "0000000000000000" and sensor.node_id`
(coordinator.py line 83). -/
def qualifying (s : SensorData) : Bool :=
  s.euid != "" && s.euid != "0000000000000000" && s.node_id != 0

/-- Dict assignment `combined.node_metrics[key] = value`: replace the
entry for `key` if present, else append it. -/
def insertMetric : List (Int × NodeMetrics) → Int → NodeMetrics → List (Int × NodeMetrics)
  | [], k, v => [(k, v)]
  | (k', v') :: rest, k, v =>
    if k' == k then (k, v) :: rest else (k', v') :: insertMetric rest k v

/-- Dict lookup in the `node_metrics` association list. -/
def mlookup : List (Int × NodeMetrics) → Int → Option NodeMetrics
  | [], _ => none
  | (k', v') :: rest, k => if k' == k then some v' else mlookup rest k

/-- The `for sensor in combined.ems.sensors` loop (coordinator.py lines
82-91): for each qualifying sensor, call the node-metrics endpoint; on
success store the result under the sensor's node id, on any exception
log and continue. Returns the accumulated map and the node ids called. -/
def fetchMetricsLoop (env : Env) (n : Nat) :
    List SensorData → List (Int × NodeMetrics) → List (Int × NodeMetrics) × List Int
  | [], acc => (acc, [])
  | s :: rest, acc =>
    if qualifying s then
      let acc' :=
        match env.nodeMetricsResult n s.node_id with
        | .ok m => insertMetric acc s.node_id m
        | .error _ => acc
      let r := fetchMetricsLoop env n rest acc'
      (r.1, s.node_id :: r.2)
    else
      fetchMetricsLoop env n rest acc

/-- Node tier (coordinator.py lines 78-94): when due, fetch the node
inventory (failures propagate) then the per-node metrics loop; when not
due, carry both `nodes` and `node_metrics` forward. -/
def fetchNodes (env : Env) (n : Nat) (dp : Option HomevoltData)
    (ems : HomevoltEmsResponse) :
    Except FetchError (Option (List NodeInfo) × List (Int × NodeMetrics) × List Int) :=
  if tierDue NODES_POLL_INTERVAL n dp then
    match env.nodesResult n with
    | .ok ns =>
      let r := fetchMetricsLoop env n ems.sensors []
      .ok (some ns, r.1, r.2)
    | .error e => .error e
  else
    match dp with
    | some d => .ok (d.nodes, d.node_metrics, [])
    | none => .ok (none, [], [])

/-- Schedule tier (coordinator.py lines 96-105): when due, fetch; any
exception is caught, logged, and the previous value carried forward
(left null when none existed). When not due, carry forward. -/
def fetchSchedule (env : Env) (n : Nat) (dp : Option HomevoltData) : Option Schedule :=
  if tierDue SCHEDULE_POLL_INTERVAL n dp then
    match env.scheduleResult n with
    | .ok s => some s
    | .error _ =>
      match dp with
      | some d => d.schedule
      | none => none
  else
    match dp with
    | some d => d.schedule
    | none => none

/-- Event firing (coordinator.py lines 107-125): when a previous
snapshot exists, compare the three aggregated state-string lists of the
previous telemetry against the new telemetry and fire one event per
field that differs, carrying the previous and current value. -/
def computeEvents (dp : Option HomevoltData) (ems : HomevoltEmsResponse) : List HAEvent :=
  match dp with
  | none => []
  | some d =>
    let prev := d.ems.aggregated.ems_data
    let curr := ems.aggregated.ems_data
    (if prev.alarm_str ≠ curr.alarm_str then
      [⟨"homevolt_alarm", prev.alarm_str, curr.alarm_str⟩] else [])
    ++ (if prev.warning_str ≠ curr.warning_str then
      [⟨"homevolt_warning", prev.warning_str, curr.warning_str⟩] else [])
    ++ (if prev.info_str ≠ curr.info_str then
      [⟨"homevolt_info", prev.info_str, curr.info_str⟩] else [])

/-- One call of `_async_update_data` with poll count `n` (already
incremented) and previous snapshot `dp`: telemetry first (any failure
propagates via `classifyError`), then the four tiers in order, then the
event comparison, then the combined snapshot is returned. A failure in
telemetry, status, error report or node inventory aborts the tick; the
log records which endpoints had been called by then. -/
def doTick (env : Env) (n : Nat) (dp : Option HomevoltData) : TickResult :=
  match env.emsResult n with
  | .error e =>
    ⟨.error (classifyError e), [],
      ⟨true, false, false, false, [], false⟩⟩
  | .ok ems =>
    match fetchStatus env n dp with
    | .error e =>
      ⟨.error (classifyError e), [],
        ⟨true, tierDue STATUS_POLL_INTERVAL n dp, false, false, [], false⟩⟩
    | .ok sv =>
      match fetchErrorReport env n dp with
      | .error e =>
        ⟨.error (classifyError e), [],
          ⟨true, tierDue STATUS_POLL_INTERVAL n dp,
            tierDue ERROR_REPORT_POLL_INTERVAL n dp, false, [], false⟩⟩
      | .ok ev =>
        match fetchNodes env n dp ems with
        | .error e =>
          ⟨.error (classifyError e), [],
            ⟨true, tierDue STATUS_POLL_INTERVAL n dp,
              tierDue ERROR_REPORT_POLL_INTERVAL n dp,
              tierDue NODES_POLL_INTERVAL n dp, [], false⟩⟩
        | .ok nv =>
          ⟨.ok ⟨ems, sv, ev, nv.1, nv.2.1, fetchSchedule env n dp⟩,
            computeEvents dp ems,
            ⟨true, tierDue STATUS_POLL_INTERVAL n dp,
              tierDue ERROR_REPORT_POLL_INTERVAL n dp,
              tierDue NODES_POLL_INTERVAL n dp, nv.2.2,
              tierDue SCHEDULE_POLL_INTERVAL n dp⟩⟩

/-- Coordinator state: the poll counter and the last good snapshot
(`self.data`, set by the update framework after a successful tick). -/
structure CoordState where
  poll_count : Nat
  data : Option HomevoltData
  deriving DecidableEq

/-- Fresh coordinator: `_poll_count = 0`, no snapshot yet. -/
def initialState : CoordState := ⟨0, none⟩

/-- One scheduler invocation: `self._poll_count += 1` happens before
the `try` block, so the counter advances even on failure; the snapshot
is replaced only when the tick returns one. -/
def updateStep (env : Env) (st : CoordState) : CoordState × TickResult :=
  let n := st.poll_count + 1
  let r := doTick env n st.data
  (⟨n, match r.outcome with
       | .ok d => some d
       | .error _ => st.data⟩, r)

/-- Run `n` ticks from the fresh coordinator, collecting each tick's
result in order. -/
def runCoordinator (env : Env) : Nat → CoordState × List TickResult
  | 0 => (initialState, [])
  | n + 1 =>
    let p := runCoordinator env n
    let s := updateStep env p.1
    (s.1, p.2 ++ [s.2])

/-- Coordinator state after `n` ticks. -/
def coordStateAfter (env : Env) (n : Nat) : CoordState :=
  (runCoordinator env n).1

/-- The result of the `n`-th tick (1-indexed); the value at 0 is an
unused placeholder. -/
def nthTickResult (env : Env) : Nat → TickResult
  | 0 => doTick env 0 none
  | n + 1 => (updateStep env (coordStateAfter env n)).2

/-- Number of telemetry (`/ems.json`) fetches in the first `n` ticks. -/
def telemetryFetchCount (env : Env) (n : Nat) : Nat :=
  ((runCoordinator env n).2.filter (fun r => r.log.ems)).length

/-- Number of `/error_report.json` fetches in the first `n` ticks. -/
def errorReportFetchCount (env : Env) (n : Nat) : Nat :=
  ((runCoordinator env n).2.filter (fun r => r.log.error_report)).length

/-- `true` iff the tick returned a snapshot rather than raising. -/
def isOkB {ε α : Type} : Except ε α → Bool
  | .ok _ => true
  | .error _ => false

/-- All of the first `N` ticks completed successfully. -/
def TicksOk (env : Env) (N : Nat) : Prop :=
  ∀ k, k < N → isOkB (nthTickResult env (k + 1)).outcome = true

/-! ## Concrete environments used to instantiate the theorems -/

/-- A telemetry response with one configured CT sensor (node 2) and no
active alarms. -/
def emsA : HomevoltEmsResponse :=
  { sensors := [{ euid := "aa01020304050607", node_id := 2 }] }

/-- Like `emsA` but with one aggregated alarm raised. -/
def emsB : HomevoltEmsResponse :=
  { aggregated := { ems_data := { alarm_str := ["BMS_OVER_VOLTAGE"] } },
    sensors := [{ euid := "aa01020304050607", node_id := 2 }] }

/-- Concrete node metrics (pack voltage 2.73 V). -/
def metricsA : NodeMetrics := { battery_voltage := 273 / 100 }

/-- A fully healthy environment: every endpoint answers on every tick;
telemetry is `emsA` on tick 1 and `emsB` (alarm raised) afterwards. -/
def envGood : Env where
  emsResult := fun n => .ok (if n == 1 then emsA else emsB)
  statusResult := fun _ => .ok {}
  errorReportResult := fun _ => .ok []
  nodesResult := fun _ => .ok [{ node_id := 2 }]
  nodeMetricsResult := fun _ _ => .ok metricsA
  scheduleResult := fun _ => .ok []

/-- Environment whose telemetry fetch raises `HomevoltAuthError`. -/
def envAuthErr : Env :=
  { envGood with emsResult := fun _ => .error .authError }

/-- Environment whose schedule fetch raises `HomevoltAuthError` while
everything else is healthy. -/
def envSchedAuth : Env :=
  { envGood with scheduleResult := fun _ => .error .authError }

/-- Environment whose telemetry fetch raises an exception that is
neither `HomevoltAuthError` nor `HomevoltConnectionError` (e.g. the
unwrapped `ClientResponseError` for a 404). -/
def envOther : Env :=
  { envGood with emsResult := fun _ => .error .otherError }

/-- A previous snapshot holding only telemetry (all other tiers at
their defaults). -/
def dpA : HomevoltData := { ems := emsA }

/-- The snapshot tick 2 of `envGood` produces from previous snapshot
`dpA`: fresh telemetry `emsB`, every other tier carried forward. -/
def tick2B : HomevoltData :=
  { ems := emsB, status := none, error_report := [], nodes := none,
    node_metrics := [], schedule := none }

/-! ## Infrastructure lemmas about the coordinator run -/

theorem isOkB_iff {ε α : Type} (e : Except ε α) :
    isOkB e = true ↔ ∃ v, e = Except.ok v := by
  cases e <;> simp [isOkB]

theorem updateStep_snd (env : Env) (st : CoordState) :
    (updateStep env st).2 = doTick env (st.poll_count + 1) st.data := rfl

theorem updateStep_poll (env : Env) (st : CoordState) :
    (updateStep env st).1.poll_count = st.poll_count + 1 := rfl

theorem coordStateAfter_succ (env : Env) (n : Nat) :
    coordStateAfter env (n + 1) = (updateStep env (coordStateAfter env n)).1 := rfl

theorem runCoordinator_snd_succ (env : Env) (n : Nat) :
    (runCoordinator env (n + 1)).2
      = (runCoordinator env n).2 ++ [nthTickResult env (n + 1)] := rfl

theorem coordStateAfter_poll_count (env : Env) : ∀ n, (coordStateAfter env n).poll_count = n
  | 0 => rfl
  | n + 1 => by
    rw [coordStateAfter_succ, updateStep_poll, coordStateAfter_poll_count env n]

theorem nthTickResult_succ (env : Env) (n : Nat) :
    nthTickResult env (n + 1) = doTick env (n + 1) (coordStateAfter env n).data := by
  show (updateStep env (coordStateAfter env n)).2 = _
  rw [updateStep_snd, coordStateAfter_poll_count]

theorem coordStateAfter_data_succ (env : Env) (n : Nat) (d : HomevoltData)
    (h : (nthTickResult env (n + 1)).outcome = Except.ok d) :
    (coordStateAfter env (n + 1)).data = some d := by
  have hrfl : (coordStateAfter env (n + 1)).data
      = match (nthTickResult env (n + 1)).outcome with
        | .ok d => some d
        | .error _ => (coordStateAfter env n).data := rfl
  rw [hrfl, h]

theorem data_some_of_ticksOk (env : Env) (N : Nat) (hN : 1 ≤ N) (hok : TicksOk env N) :
    ∃ d, (coordStateAfter env N).data = some d := by
  obtain ⟨m, rfl⟩ : ∃ m, N = m + 1 := ⟨N - 1, by omega⟩
  obtain ⟨d, hd⟩ := (isOkB_iff _).1 (hok m (by omega))
  exact ⟨d, coordStateAfter_data_succ env m d hd⟩

theorem tierDue_none (p n : Nat) : tierDue p n none = true := by
  simp [tierDue]

theorem tierDue_some (p n : Nat) (d : HomevoltData) :
    tierDue p n (some d) = (n % p == 0) := by
  simp [tierDue]

theorem doTick_eq_of_ok (env : Env) (n : Nat) (dp : Option HomevoltData)
    {ems : HomevoltEmsResponse} {sv : Option HomevoltStatusResponse}
    {ev : List ErrorReportEntry}
    {nv : Option (List NodeInfo) × List (Int × NodeMetrics) × List Int}
    (he : env.emsResult n = Except.ok ems)
    (hs : fetchStatus env n dp = Except.ok sv)
    (her : fetchErrorReport env n dp = Except.ok ev)
    (hn : fetchNodes env n dp ems = Except.ok nv) :
    doTick env n dp =
      ⟨Except.ok ⟨ems, sv, ev, nv.1, nv.2.1, fetchSchedule env n dp⟩,
        computeEvents dp ems,
        ⟨true, tierDue STATUS_POLL_INTERVAL n dp,
          tierDue ERROR_REPORT_POLL_INTERVAL n dp,
          tierDue NODES_POLL_INTERVAL n dp, nv.2.2,
          tierDue SCHEDULE_POLL_INTERVAL n dp⟩⟩ := by
  unfold doTick
  simp only [he, hs, her, hn]

theorem doTick_err_ems (env : Env) (n : Nat) (dp : Option HomevoltData)
    {e : FetchError} (he : env.emsResult n = Except.error e) :
    doTick env n dp =
      ⟨Except.error (classifyError e), [],
        ⟨true, false, false, false, [], false⟩⟩ := by
  unfold doTick
  simp only [he]

theorem doTick_err_status (env : Env) (n : Nat) (dp : Option HomevoltData)
    {ems : HomevoltEmsResponse} {e : FetchError}
    (he : env.emsResult n = Except.ok ems)
    (hs : fetchStatus env n dp = Except.error e) :
    doTick env n dp =
      ⟨Except.error (classifyError e), [],
        ⟨true, tierDue STATUS_POLL_INTERVAL n dp, false, false, [], false⟩⟩ := by
  unfold doTick
  simp only [he, hs]

theorem doTick_err_er (env : Env) (n : Nat) (dp : Option HomevoltData)
    {ems : HomevoltEmsResponse} {sv : Option HomevoltStatusResponse} {e : FetchError}
    (he : env.emsResult n = Except.ok ems)
    (hs : fetchStatus env n dp = Except.ok sv)
    (her : fetchErrorReport env n dp = Except.error e) :
    doTick env n dp =
      ⟨Except.error (classifyError e), [],
        ⟨true, tierDue STATUS_POLL_INTERVAL n dp,
          tierDue ERROR_REPORT_POLL_INTERVAL n dp, false, [], false⟩⟩ := by
  unfold doTick
  simp only [he, hs, her]

theorem doTick_err_nodes (env : Env) (n : Nat) (dp : Option HomevoltData)
    {ems : HomevoltEmsResponse} {sv : Option HomevoltStatusResponse}
    {ev : List ErrorReportEntry} {e : FetchError}
    (he : env.emsResult n = Except.ok ems)
    (hs : fetchStatus env n dp = Except.ok sv)
    (her : fetchErrorReport env n dp = Except.ok ev)
    (hn : fetchNodes env n dp ems = Except.error e) :
    doTick env n dp =
      ⟨Except.error (classifyError e), [],
        ⟨true, tierDue STATUS_POLL_INTERVAL n dp,
          tierDue ERROR_REPORT_POLL_INTERVAL n dp,
          tierDue NODES_POLL_INTERVAL n dp, [], false⟩⟩ := by
  unfold doTick
  simp only [he, hs, her, hn]

theorem doTick_ok_inv (env : Env) (n : Nat) (dp : Option HomevoltData)
    (d : HomevoltData) (h : (doTick env n dp).outcome = Except.ok d) :
    ∃ ems sv ev nv,
      env.emsResult n = Except.ok ems ∧
      fetchStatus env n dp = Except.ok sv ∧
      fetchErrorReport env n dp = Except.ok ev ∧
      fetchNodes env n dp ems = Except.ok nv ∧
      d = ⟨ems, sv, ev, nv.1, nv.2.1, fetchSchedule env n dp⟩ := by
  cases he : env.emsResult n with
  | error e => rw [doTick_err_ems env n dp he] at h; simp at h
  | ok ems =>
    cases hs : fetchStatus env n dp with
    | error e => rw [doTick_err_status env n dp he hs] at h; simp at h
    | ok sv =>
      cases her : fetchErrorReport env n dp with
      | error e => rw [doTick_err_er env n dp he hs her] at h; simp at h
      | ok ev =>
        cases hn : fetchNodes env n dp ems with
        | error e => rw [doTick_err_nodes env n dp he hs her hn] at h; simp at h
        | ok nv =>
          rw [doTick_eq_of_ok env n dp he hs her hn] at h
          simp only [Except.ok.injEq] at h
          exact ⟨ems, sv, ev, nv, rfl, rfl, rfl, hn, h.symm⟩

theorem fetchStatus_ok (env : Env) (n : Nat) (dp : Option HomevoltData)
    {v : HomevoltStatusResponse} (h : env.statusResult n = Except.ok v) :
    ∃ sv, fetchStatus env n dp = Except.ok sv := by
  by_cases hd : tierDue STATUS_POLL_INTERVAL n dp = true
  · exact ⟨some v, by simp [fetchStatus, hd, h, Except.map]⟩
  · cases dp with
    | some d => exact ⟨d.status, by simp [fetchStatus, hd]⟩
    | none => exact ⟨none, by simp [fetchStatus, hd]⟩

theorem fetchErrorReport_ok (env : Env) (n : Nat) (dp : Option HomevoltData)
    {v : List ErrorReportEntry} (h : env.errorReportResult n = Except.ok v) :
    ∃ ev, fetchErrorReport env n dp = Except.ok ev := by
  by_cases hd : tierDue ERROR_REPORT_POLL_INTERVAL n dp = true
  · exact ⟨v, by simp [fetchErrorReport, hd, h]⟩
  · cases dp with
    | some d => exact ⟨d.error_report, by simp [fetchErrorReport, hd]⟩
    | none => exact ⟨[], by simp [fetchErrorReport, hd]⟩

theorem fetchNodes_ok (env : Env) (n : Nat) (dp : Option HomevoltData)
    (ems : HomevoltEmsResponse) {ns : List NodeInfo}
    (h : env.nodesResult n = Except.ok ns) :
    ∃ nv, fetchNodes env n dp ems = Except.ok nv := by
  by_cases hd : tierDue NODES_POLL_INTERVAL n dp = true
  · refine ⟨(some ns, (fetchMetricsLoop env n ems.sensors []).1,
      (fetchMetricsLoop env n ems.sensors []).2), ?_⟩
    simp [fetchNodes, hd, h]
  · cases dp with
    | some d => exact ⟨(d.nodes, d.node_metrics, []), by simp [fetchNodes, hd]⟩
    | none => exact ⟨(none, [], []), by simp [fetchNodes, hd]⟩

theorem doTick_log_ems (env : Env) (n : Nat) (dp : Option HomevoltData) :
    (doTick env n dp).log.ems = true := by
  cases he : env.emsResult n with
  | error e => rw [doTick_err_ems env n dp he]
  | ok ems =>
    cases hs : fetchStatus env n dp with
    | error e => rw [doTick_err_status env n dp he hs]
    | ok sv =>
      cases her : fetchErrorReport env n dp with
      | error e => rw [doTick_err_er env n dp he hs her]
      | ok ev =>
        cases hn : fetchNodes env n dp ems with
        | error e => rw [doTick_err_nodes env n dp he hs her hn]
        | ok nv => rw [doTick_eq_of_ok env n dp he hs her hn]

theorem telemetryFetchCount_eq (env : Env) : ∀ N, telemetryFetchCount env N = N
  | 0 => rfl
  | N + 1 => by
    have h1 := telemetryFetchCount_eq env N
    unfold telemetryFetchCount at h1 ⊢
    rw [runCoordinator_snd_succ, List.filter_append, List.length_append, h1,
      nthTickResult_succ]
    simp [List.filter_cons, doTick_log_ems]

theorem errorReportFetchCount_succ (env : Env) (N : Nat) :
    errorReportFetchCount env (N + 1) =
      errorReportFetchCount env N +
        (if (nthTickResult env (N + 1)).log.error_report then 1 else 0) := by
  unfold errorReportFetchCount
  rw [runCoordinator_snd_succ, List.filter_append, List.length_append]
  congr 1
  cases h : (nthTickResult env (N + 1)).log.error_report <;>
    simp [List.filter_cons, h]

theorem nthTick_log_of_ok (env : Env) (N : Nat)
    (hok : isOkB (nthTickResult env (N + 1)).outcome = true) :
    (nthTickResult env (N + 1)).log.status
        = tierDue STATUS_POLL_INTERVAL (N + 1) (coordStateAfter env N).data ∧
    (nthTickResult env (N + 1)).log.error_report
        = tierDue ERROR_REPORT_POLL_INTERVAL (N + 1) (coordStateAfter env N).data ∧
    (nthTickResult env (N + 1)).log.nodes
        = tierDue NODES_POLL_INTERVAL (N + 1) (coordStateAfter env N).data ∧
    (nthTickResult env (N + 1)).log.schedule
        = tierDue SCHEDULE_POLL_INTERVAL (N + 1) (coordStateAfter env N).data := by
  rw [nthTickResult_succ] at hok ⊢
  obtain ⟨d, hd⟩ := (isOkB_iff _).1 hok
  obtain ⟨ems, sv, ev, nv, he, hs, her, hn, _⟩ := doTick_ok_inv _ _ _ _ hd
  rw [doTick_eq_of_ok _ _ _ he hs her hn]
  exact ⟨rfl, rfl, rfl, rfl⟩

theorem tier_fetch_iff (env : Env) (P : Nat) (m : Nat) (hok : TicksOk env (m + 1)) :
    tierDue P (m + 1) (coordStateAfter env m).data = true ↔
      (m + 1 = 1 ∨ (m + 1) % P = 0) := by
  cases m with
  | zero =>
    rw [show (coordStateAfter env 0).data = none from rfl, tierDue_none]
    simp
  | succ k =>
    obtain ⟨d, hd⟩ := data_some_of_ticksOk env (k + 1) (by omega)
      (fun j hj => hok j (by omega))
    rw [hd, tierDue_some]
    simp only [beq_iff_eq]
    have h1 : ¬(k + 1 + 1 = 1) := by omega
    simp [h1]

theorem errorReportFetchCount_formula (env : Env) :
    ∀ N, 1 ≤ N → TicksOk env N → errorReportFetchCount env N = 1 + N / 4
  | 0, h, _ => absurd h (by omega)
  | m + 1, _, hok => by
    rw [errorReportFetchCount_succ]
    have hlog := (nthTick_log_of_ok env m (hok m (by omega))).2.1
    rw [hlog]
    cases m with
    | zero =>
      rw [show (coordStateAfter env 0).data = none from rfl, tierDue_none]
      simp [show errorReportFetchCount env 0 = 0 from rfl]
    | succ k =>
      have ihm := errorReportFetchCount_formula env (k + 1) (by omega)
        (fun j hj => hok j (by omega))
      rw [ihm]
      obtain ⟨d, hd⟩ := data_some_of_ticksOk env (k + 1) (by omega)
        (fun j hj => hok j (by omega))
      rw [hd, tierDue_some]
      nth_rewrite 2 [Nat.succ_div]
      by_cases h4 : (4 : Nat) ∣ (k + 1 + 1)
      · have hm : (k + 1 + 1) % 4 = 0 := by omega
        simp [ERROR_REPORT_POLL_INTERVAL, h4, hm]
        try omega
      · have hm : ¬((k + 1 + 1) % 4 = 0) := by omega
        simp [ERROR_REPORT_POLL_INTERVAL, h4, hm]
        try omega

theorem doTick_isOk (env : Env) (n : Nat) (dp : Option HomevoltData)
    {ems : HomevoltEmsResponse} {stv : HomevoltStatusResponse}
    {erv : List ErrorReportEntry} {nsv : List NodeInfo}
    (he : env.emsResult n = Except.ok ems)
    (hs : env.statusResult n = Except.ok stv)
    (her : env.errorReportResult n = Except.ok erv)
    (hn : env.nodesResult n = Except.ok nsv) :
    isOkB (doTick env n dp).outcome = true := by
  obtain ⟨sv, hs'⟩ := fetchStatus_ok env n dp hs
  obtain ⟨ev, her'⟩ := fetchErrorReport_ok env n dp her
  obtain ⟨nv, hn'⟩ := fetchNodes_ok env n dp ems hn
  rw [doTick_eq_of_ok env n dp he hs' her' hn']
  rfl

/-! ## Lemmas about the per-node metrics loop -/

theorem tierDue_some_ne (P n : Nat) (d : HomevoltData) (h : ¬ n % P = 0) :
    tierDue P n (some d) = false := by
  rw [tierDue_some]
  exact beq_eq_false_iff_ne.mpr h

theorem mlookup_insert (k : Int) (v : NodeMetrics) (q : Int) :
    ∀ l, mlookup (insertMetric l k v) q = if k == q then some v else mlookup l q := by
  intro l
  induction l with
  | nil => simp [insertMetric, mlookup]
  | cons p rest ih =>
    rcases p with ⟨k', v'⟩
    by_cases h : k' = k
    · subst h
      by_cases hq : k' = q <;> simp [insertMetric, mlookup, hq]
    · by_cases hq : k' = q
      · subst hq
        have hk : ¬ k = k' := fun hh => h hh.symm
        simp [insertMetric, mlookup, h, hk]
      · simp [insertMetric, mlookup, h, hq, ih]

theorem fetchMetricsLoop_cons_qual (env : Env) (n : Nat) (s : SensorData)
    (rest : List SensorData) (acc : List (Int × NodeMetrics))
    (hq : qualifying s = true) :
    fetchMetricsLoop env n (s :: rest) acc =
      ((fetchMetricsLoop env n rest
          (match env.nodeMetricsResult n s.node_id with
            | .ok m => insertMetric acc s.node_id m
            | .error _ => acc)).1,
        s.node_id ::
          (fetchMetricsLoop env n rest
            (match env.nodeMetricsResult n s.node_id with
              | .ok m => insertMetric acc s.node_id m
              | .error _ => acc)).2) := by
  simp [fetchMetricsLoop, hq]

theorem fetchMetricsLoop_cons_nonqual (env : Env) (n : Nat) (s : SensorData)
    (rest : List SensorData) (acc : List (Int × NodeMetrics))
    (hq : ¬ qualifying s = true) :
    fetchMetricsLoop env n (s :: rest) acc = fetchMetricsLoop env n rest acc := by
  simp [fetchMetricsLoop, hq]

theorem fetchMetricsLoop_calls (env : Env) (n : Nat) :
    ∀ (ss : List SensorData) (acc : List (Int × NodeMetrics)),
      (fetchMetricsLoop env n ss acc).2
        = (ss.filter qualifying).map (fun s => s.node_id) := by
  intro ss
  induction ss with
  | nil => intro acc; simp [fetchMetricsLoop]
  | cons s rest ih =>
    intro acc
    by_cases hq : qualifying s = true
    · rw [fetchMetricsLoop_cons_qual env n s rest acc hq]
      simp [List.filter_cons, hq, ih]
    · rw [fetchMetricsLoop_cons_nonqual env n s rest acc hq]
      simp [List.filter_cons, hq, ih]

theorem fetchMetricsLoop_lookup (env : Env) (n : Nat) :
    ∀ (ss : List SensorData) (acc : List (Int × NodeMetrics)) (k : Int),
      mlookup (fetchMetricsLoop env n ss acc).1 k =
        if ss.any (fun s => qualifying s && s.node_id == k) then
          (match env.nodeMetricsResult n k with
            | .ok m => some m
            | .error _ => mlookup acc k)
        else mlookup acc k := by
  intro ss
  induction ss with
  | nil => intro acc k; simp [fetchMetricsLoop]
  | cons s rest ih =>
    intro acc k
    by_cases hq : qualifying s = true
    · rw [fetchMetricsLoop_cons_qual env n s rest acc hq]
      by_cases hsk : s.node_id = k
      · subst hsk
        cases hm : env.nodeMetricsResult n s.node_id with
        | ok m =>
          dsimp only
          rw [ih, mlookup_insert]
          by_cases hr : rest.any (fun t => qualifying t && t.node_id == s.node_id) = true <;>
            simp [List.any_cons, hq, hm, hr]
        | error e =>
          dsimp only
          rw [ih]
          by_cases hr : rest.any (fun t => qualifying t && t.node_id == s.node_id) = true <;>
            simp [List.any_cons, hq, hm, hr]
      · have hne : (s.node_id == k) = false := beq_eq_false_iff_ne.mpr hsk
        cases hm : env.nodeMetricsResult n s.node_id with
        | ok m =>
          dsimp only
          rw [ih, mlookup_insert]
          simp [List.any_cons, hne, hq]
        | error e =>
          dsimp only
          rw [ih]
          simp [List.any_cons, hne, hq]
    · rw [fetchMetricsLoop_cons_nonqual env n s rest acc hq]
      rw [ih]
      simp [List.any_cons, hq]

theorem fetchNodes_due (env : Env) (n : Nat) (dp : Option HomevoltData)
    (ems : HomevoltEmsResponse) {ns : List NodeInfo}
    (hdue : tierDue NODES_POLL_INTERVAL n dp = true)
    (hns : env.nodesResult n = Except.ok ns) :
    fetchNodes env n dp ems = Except.ok
      (some ns, (fetchMetricsLoop env n ems.sensors []).1,
        (fetchMetricsLoop env n ems.sensors []).2) := by
  simp [fetchNodes, hdue, hns]

/-! ## Lemmas about the transport retry loop -/

theorem isRetryStatus_cases {c : Nat} (h : isRetryStatus c = true) :
    c = 502 ∨ c = 503 ∨ c = 504 := by
  simp [isRetryStatus, beq_iff_eq] at h
  tauto

theorem stepFor_retryable (o : Nat → AttemptOutcome) (a : Nat)
    (h : retryable (o a) = true) (ha : a < MAX_RETRIES - 1) :
    stepFor o a = StepRes.retry (BACKOFF_BASE ^ (a + 1)) := by
  unfold stepFor
  cases ho : o a with
  | connError => simp [ha]
  | status c =>
    rw [ho] at h
    rcases isRetryStatus_cases h with rfl | rfl | rfl <;>
      simp [isRetryStatus, ha]

theorem stepFor_two (o : Nat → AttemptOutcome)
    (h : retryable (o 2) = true) :
    stepFor o 2 = StepRes.done
      (match o 2 with
        | .status c => ReqResult.apiError c
        | .connError => ReqResult.connectionError) := by
  unfold stepFor
  cases ho : o 2 with
  | connError => simp [MAX_RETRIES]
  | status c =>
    rw [ho] at h
    rcases isRetryStatus_cases h with rfl | rfl | rfl <;>
      simp [isRetryStatus, MAX_RETRIES]

theorem stepFor_retry_inv (o : Nat → AttemptOutcome) (a : Nat) (s : Nat)
    (h : stepFor o a = StepRes.retry s) :
    s = BACKOFF_BASE ^ (a + 1) ∧ a < MAX_RETRIES - 1 := by
  unfold stepFor at h
  cases ho : o a with
  | connError =>
    rw [ho] at h
    by_cases hlt : a < MAX_RETRIES - 1
    · simp [hlt] at h
      exact ⟨h.symm, hlt⟩
    · simp [hlt] at h
  | status c =>
    rw [ho] at h
    by_cases h401 : (c == 401) = true
    · simp [h401] at h
    · by_cases hrs : isRetryStatus c = true
      · by_cases hlt : a < MAX_RETRIES - 1
        · simp [h401, hrs, hlt] at h
          exact ⟨h.symm, hlt⟩
        · simp [h401, hrs, hlt] at h
      · by_cases hge : 400 ≤ c
        · simp [h401, hrs, hge] at h
        · simp [h401, hrs, hge] at h

theorem runFrom_attempts_le (o : Nat → AttemptOutcome) :
    ∀ l, (runFrom o l).attemptsMade ≤ l.length := by
  intro l
  induction l with
  | nil => simp [runFrom]
  | cons a rest ih =>
    unfold runFrom
    cases stepFor o a with
    | done r => simp
    | retry s =>
      simp only [List.length_cons]
      omega

theorem runFrom_attempts_pos (o : Nat → AttemptOutcome) (a : Nat) (l : List Nat) :
    1 ≤ (runFrom o (a :: l)).attemptsMade := by
  unfold runFrom
  cases stepFor o a with
  | done r => simp
  | retry s => simp

theorem runFrom_sleeps (o : Nat → AttemptOutcome) :
    ∀ (m a : Nat), a + m = MAX_RETRIES →
      (runFrom o (List.range' a m)).sleeps
        = (List.range ((runFrom o (List.range' a m)).attemptsMade - 1)).map
            (fun i => BACKOFF_BASE ^ (a + i + 1)) := by
  intro m
  induction m with
  | zero => intro a ha; simp [List.range', runFrom]
  | succ t ih =>
    intro a ha
    rw [List.range'_succ]
    unfold runFrom
    cases hstep : stepFor o a with
    | done r => simp
    | retry s =>
      obtain ⟨rfl, hlt⟩ := stepFor_retry_inv o a s hstep
      have ht : 1 ≤ t := by
        simp [MAX_RETRIES] at ha hlt
        omega
      obtain ⟨u, rfl⟩ : ∃ u, t = u + 1 := ⟨t - 1, by omega⟩
      have hpos : 1 ≤ (runFrom o (List.range' (a + 1) (u + 1))).attemptsMade := by
        rw [List.range'_succ]
        exact runFrom_attempts_pos o (a + 1) _
      have ihs := ih (a + 1) (by omega)
      dsimp only
      rw [ihs]
      obtain ⟨B, hB⟩ : ∃ B, (runFrom o (List.range' (a + 1) (u + 1))).attemptsMade = B + 1 :=
        ⟨(runFrom o (List.range' (a + 1) (u + 1))).attemptsMade - 1, by omega⟩
      rw [hB]
      simp only [Nat.add_sub_cancel]
      rw [List.range_succ_eq_map, List.map_cons, List.map_map]
      refine congrArg₂ List.cons (by rw [Nat.add_zero]) ?_
      refine List.map_congr_left ?_
      intro i _
      show BACKOFF_BASE ^ (a + 1 + i + 1) = BACKOFF_BASE ^ (a + (i + 1) + 1)
      exact congrArg (BACKOFF_BASE ^ ·) (by omega)

theorem requestRun_attempts_le (o : Nat → AttemptOutcome) :
    (requestRun o).attemptsMade ≤ 3 := by
  have h := runFrom_attempts_le o (List.range MAX_RETRIES)
  simpa [MAX_RETRIES] using h

theorem requestRun_sleeps (o : Nat → AttemptOutcome) :
    (requestRun o).sleeps
      = (List.range ((requestRun o).attemptsMade - 1)).map
          (fun i => BACKOFF_BASE ^ (i + 1)) := by
  have h := runFrom_sleeps o MAX_RETRIES 0 (by omega)
  rw [show requestRun o = runFrom o (List.range' 0 MAX_RETRIES) from by
    rw [requestRun, List.range_eq_range']]
  rw [h]
  refine List.map_congr_left ?_
  intro i _
  show BACKOFF_BASE ^ (0 + i + 1) = BACKOFF_BASE ^ (i + 1)
  exact congrArg (BACKOFF_BASE ^ ·) (by omega)

theorem requestRun_eq_list (o : Nat → AttemptOutcome) :
    requestRun o = runFrom o [0, 1, 2] := by
  show runFrom o (List.range MAX_RETRIES) = _
  rw [show List.range MAX_RETRIES = [0, 1, 2] from rfl]

theorem requestRun_all_retryable (o : Nat → AttemptOutcome)
    (h : ∀ j, j < 3 → retryable (o j) = true) :
    requestRun o =
      ⟨match o 2 with
        | .status c => ReqResult.apiError c
        | .connError => ReqResult.connectionError, [2, 4], 3⟩ := by
  have h0 := stepFor_retryable o 0 (h 0 (by omega)) (by decide)
  have h1 := stepFor_retryable o 1 (h 1 (by omega)) (by decide)
  have h2 := stepFor_two o (h 2 (by omega))
  rw [requestRun_eq_list]
  simp only [runFrom, h0, h1, h2]
  try rfl

theorem requestRun_auth (o : Nat → AttemptOutcome) (k : Nat) (hk : k < 3)
    (hearlier : ∀ j, j < k → retryable (o j) = true)
    (h401 : o k = AttemptOutcome.status 401) :
    (requestRun o).result = ReqResult.authError ∧
      (requestRun o).attemptsMade = k + 1 := by
  rw [requestRun_eq_list]
  interval_cases k
  · have h0 : stepFor o 0 = StepRes.done ReqResult.authError := by
      simp [stepFor, h401]
    simp only [runFrom, h0]
    exact ⟨trivial, trivial⟩
  · have h0 := stepFor_retryable o 0 (hearlier 0 (by omega)) (by decide)
    have h1 : stepFor o 1 = StepRes.done ReqResult.authError := by
      simp [stepFor, h401]
    simp only [runFrom, h0, h1]
    exact ⟨trivial, trivial⟩
  · have h0 := stepFor_retryable o 0 (hearlier 0 (by omega)) (by decide)
    have h1 := stepFor_retryable o 1 (hearlier 1 (by omega)) (by decide)
    have h2 : stepFor o 2 = StepRes.done ReqResult.authError := by
      simp [stepFor, h401]
    simp only [runFrom, h0, h1, h2]
    exact ⟨trivial, trivial⟩

/-! ## String-literal comparisons used by the event filters -/

theorem beq_wa : (("homevolt_warning" : String) == "homevolt_alarm") = false := by decide

theorem beq_ia : (("homevolt_info" : String) == "homevolt_alarm") = false := by decide

theorem beq_aw : (("homevolt_alarm" : String) == "homevolt_warning") = false := by decide

theorem beq_iw : (("homevolt_info" : String) == "homevolt_warning") = false := by decide

theorem beq_ai : (("homevolt_alarm" : String) == "homevolt_info") = false := by decide

theorem beq_wi : (("homevolt_warning" : String) == "homevolt_info") = false := by decide

theorem beq_aa : (("homevolt_alarm" : String) == "homevolt_alarm") = true := by decide

theorem beq_ww : (("homevolt_warning" : String) == "homevolt_warning") = true := by decide

theorem beq_ii : (("homevolt_info" : String) == "homevolt_info") = true := by decide

/-! ## Claim theorems -/

/-- C9: every response decoder is a total function over its raw payload
(each is a total Lean function by construction): decoding the empty
payload (every key absent) yields the all-defaults record of the
dataclass, and decoding a full payload (every key present) yields the
record of exactly the given field values — integers (`Int`) and JSON
numbers (`Rat`) pass through with no precision loss, and nested keys
delegate to the nested record's own decoder. One conjunct pair
(empty-decode, full-round-trip) per decoder in models.py. -/
theorem spec_c9 :
    (EmsInfo.from_dict {} = {} ∧
      ∀ (a : Int) (b : String) (c d : Int),
        EmsInfo.from_dict ⟨some a, some b, some c, some d⟩ = ⟨a, b, c, d⟩) ∧
    (BmsInfo.from_dict {} = {} ∧
      ∀ (a b : String) (c d : Int),
        BmsInfo.from_dict ⟨some a, some b, some c, some d⟩ = ⟨a, b, c, d⟩) ∧
    (InvInfo.from_dict {} = {} ∧
      ∀ (a b : String),
        InvInfo.from_dict ⟨some a, some b⟩ = ⟨a, b⟩) ∧
    (EmsConfig.from_dict {} = {} ∧
      ∀ (a : Int) (b : String) (c : Bool),
        EmsConfig.from_dict ⟨some a, some b, some c⟩ = ⟨a, b, c⟩) ∧
    (EmsControl.from_dict {} = {} ∧
      ∀ (a : Int) (b : String) (c : Int),
        EmsControl.from_dict ⟨some a, some b, some c⟩ = ⟨a, b, c⟩) ∧
    (EmsData.from_dict {} = {} ∧
      ∀ (a1 a2 : Int) (a3 : String) (a4 : Int) (a5 : List String) (a6 : Int)
        (a7 : List String) (a8 : Int) (a9 : List String)
        (a10 a11 a12 a13 a14 a15 a16 a17 a18 a19 a20 a21 : Int),
        EmsData.from_dict ⟨some a1, some a2, some a3, some a4, some a5, some a6,
            some a7, some a8, some a9, some a10, some a11, some a12, some a13,
            some a14, some a15, some a16, some a17, some a18, some a19, some a20,
            some a21⟩
          = ⟨a1, a2, a3, a4, a5, a6, a7, a8, a9, a10, a11, a12, a13, a14, a15,
             a16, a17, a18, a19, a20, a21⟩) ∧
    (BmsData.from_dict {} = {} ∧
      ∀ (a1 a2 a3 a4 : Int) (a5 : String) (a6 : Int) (a7 : List String)
        (a8 a9 : Int),
        BmsData.from_dict ⟨some a1, some a2, some a3, some a4, some a5, some a6,
            some a7, some a8, some a9⟩
          = ⟨a1, a2, a3, a4, a5, a6, a7, a8, a9⟩) ∧
    (EmsPrediction.from_dict {} = {} ∧
      ∀ (a1 a2 a3 a4 a5 a6 a7 a8 : Int),
        EmsPrediction.from_dict ⟨some a1, some a2, some a3, some a4, some a5,
            some a6, some a7, some a8⟩
          = ⟨a1, a2, a3, a4, a5, a6, a7, a8⟩) ∧
    (EmsVoltage.from_dict {} = {} ∧
      ∀ (a1 a2 a3 a4 a5 a6 : Int),
        EmsVoltage.from_dict ⟨some a1, some a2, some a3, some a4, some a5, some a6⟩
          = ⟨a1, a2, a3, a4, a5, a6⟩) ∧
    (EmsCurrent.from_dict {} = {} ∧
      ∀ (a1 a2 a3 : Int),
        EmsCurrent.from_dict ⟨some a1, some a2, some a3⟩ = ⟨a1, a2, a3⟩) ∧
    (EmsAggregate.from_dict {} = {} ∧
      ∀ (a1 a2 : Rat),
        EmsAggregate.from_dict ⟨some a1, some a2⟩ = ⟨a1, a2⟩) ∧
    (EmsDevice.from_dict {} = {} ∧
      ∀ (a1 : Int) (a2 a3 : String) (a4 : Int) (a5 : String) (a6 : Int)
        (a7 : String) (b1 : EmsInfoRaw) (b2 : List BmsInfoRaw) (b3 : InvInfoRaw)
        (b4 : EmsConfigRaw) (b5 : EmsControlRaw) (b6 : EmsDataRaw)
        (b7 : List BmsDataRaw) (b8 : EmsPredictionRaw) (b9 : EmsVoltageRaw)
        (b10 : EmsCurrentRaw) (b11 : EmsAggregateRaw) (a8 : Int),
        EmsDevice.from_dict ⟨some a1, some a2, some a3, some a4, some a5, some a6,
            some a7, some b1, some b2, some b3, some b4, some b5, some b6, some b7,
            some b8, some b9, some b10, some b11, some a8⟩
          = ⟨a1, a2, a3, a4, a5, a6, a7, EmsInfo.from_dict b1,
             b2.map BmsInfo.from_dict, InvInfo.from_dict b3,
             EmsConfig.from_dict b4, EmsControl.from_dict b5,
             EmsData.from_dict b6, b7.map BmsData.from_dict,
             EmsPrediction.from_dict b8, EmsVoltage.from_dict b9,
             EmsCurrent.from_dict b10, EmsAggregate.from_dict b11, a8⟩) ∧
    (PhaseData.from_dict {} = {} ∧
      ∀ (a1 a2 a3 a4 : Rat),
        PhaseData.from_dict ⟨some a1, some a2, some a3, some a4⟩
          = ⟨a1, a2, a3, a4⟩) ∧
    (SensorData.from_dict {} = {} ∧
      ∀ (a1 : String) (a2 : Int) (a3 : String) (a4 : Int) (a5 : Bool)
        (a6 a7 a8 : Rat) (p : List PhaseDataRaw) (a9 : Rat) (a10 : Int)
        (a11 a12 : Rat) (a13 : Int) (a14 : String),
        SensorData.from_dict ⟨some a1, some a2, some a3, some a4, some a5, some a6,
            some a7, some a8, some p, some a9, some a10, some a11, some a12,
            some a13, some a14⟩
          = ⟨a1, a2, a3, a4, a5, a6, a7, a8, p.map PhaseData.from_dict, a9, a10,
             a11, a12, a13, a14⟩) ∧
    (HomevoltEmsResponse.from_dict {} = {} ∧
      ∀ (a1 : String) (a2 : Int) (e : List EmsDeviceRaw) (ag : EmsDeviceRaw)
        (se : List SensorDataRaw),
        HomevoltEmsResponse.from_dict ⟨some a1, some a2, some e, some ag, some se⟩
          = ⟨a1, a2, e.map EmsDevice.from_dict, EmsDevice.from_dict ag,
             se.map SensorData.from_dict⟩) ∧
    (WifiStatus.from_dict {} = {} ∧
      ∀ (a1 a2 a3 : String) (a4 : Int) (a5 : Bool),
        WifiStatus.from_dict ⟨some a1, some a2, some a3, some a4, some a5⟩
          = ⟨a1, a2, a3, a4, a5⟩) ∧
    (MqttStatus.from_dict {} = {} ∧
      ∀ (a1 a2 : Bool),
        MqttStatus.from_dict ⟨some a1, some a2⟩ = ⟨a1, a2⟩) ∧
    (LteStatus.from_dict {} = {} ∧
      ∀ (a1 a2 : String) (a3 : Int) (a4 : Bool),
        LteStatus.from_dict ⟨some a1, some a2, some a3, some a4⟩
          = ⟨a1, a2, a3, a4⟩) ∧
    (FirmwareInfo.from_dict {} = {} ∧
      ∀ (a1 a2 : String),
        FirmwareInfo.from_dict ⟨some a1, some a2⟩ = ⟨a1, a2⟩) ∧
    (HomevoltStatusResponse.from_dict {} = {} ∧
      ∀ (a1 : Int) (f : FirmwareInfoRaw) (w : WifiStatusRaw) (m : MqttStatusRaw)
        (l : LteStatusRaw),
        HomevoltStatusResponse.from_dict ⟨some a1, some f, some w, some m, some l⟩
          = ⟨a1, FirmwareInfo.from_dict f, WifiStatus.from_dict w,
             MqttStatus.from_dict m, LteStatus.from_dict l⟩) ∧
    (ErrorReportEntry.from_dict {} = {} ∧
      ∀ (a1 : Int) (a2 : String) (a3 : Int) (a4 a5 a6 : String)
        (a7 : List String),
        ErrorReportEntry.from_dict ⟨some a1, some a2, some a3, some a4, some a5,
            some a6, some a7⟩
          = ⟨a1, a2, a3, a4, a5, a6, a7⟩) :=
  ⟨⟨rfl, fun _ _ _ _ => rfl⟩,
   ⟨rfl, fun _ _ _ _ => rfl⟩,
   ⟨rfl, fun _ _ => rfl⟩,
   ⟨rfl, fun _ _ _ => rfl⟩,
   ⟨rfl, fun _ _ _ => rfl⟩,
   ⟨rfl, fun _ _ _ _ _ _ _ _ _ _ _ _ _ _ _ _ _ _ _ _ _ => rfl⟩,
   ⟨rfl, fun _ _ _ _ _ _ _ _ _ => rfl⟩,
   ⟨rfl, fun _ _ _ _ _ _ _ _ => rfl⟩,
   ⟨rfl, fun _ _ _ _ _ _ => rfl⟩,
   ⟨rfl, fun _ _ _ => rfl⟩,
   ⟨rfl, fun _ _ => rfl⟩,
   ⟨rfl, fun _ _ _ _ _ _ _ _ _ _ _ _ _ _ _ _ _ _ _ => rfl⟩,
   ⟨rfl, fun _ _ _ _ => rfl⟩,
   ⟨rfl, fun _ _ _ _ _ _ _ _ _ _ _ _ _ _ _ => rfl⟩,
   ⟨rfl, fun _ _ _ _ _ => rfl⟩,
   ⟨rfl, fun _ _ _ _ _ => rfl⟩,
   ⟨rfl, fun _ _ => rfl⟩,
   ⟨rfl, fun _ _ _ _ => rfl⟩,
   ⟨rfl, fun _ _ => rfl⟩,
   ⟨rfl, fun _ _ _ _ _ => rfl⟩,
   ⟨rfl, fun _ _ _ _ _ _ _ => rfl⟩⟩

/-- C1: for every tick N ≥ 1 of a run whose first N ticks all completed
successfully, each periodic tier's endpoint is fetched on tick N exactly
when N = 1 or N is divisible by that tier's period (status 10,
error_report 4, node inventory 10, schedule 10), telemetry is fetched on
every tick, and the telemetry fetch count after N ticks is N. -/
theorem spec_c1 (env : Env) (N : Nat) (hN : 1 ≤ N) (hok : TicksOk env N) :
    (nthTickResult env N).log.ems = true ∧
    ((nthTickResult env N).log.status = true ↔
      (N = 1 ∨ N % STATUS_POLL_INTERVAL = 0)) ∧
    ((nthTickResult env N).log.error_report = true ↔
      (N = 1 ∨ N % ERROR_REPORT_POLL_INTERVAL = 0)) ∧
    ((nthTickResult env N).log.nodes = true ↔
      (N = 1 ∨ N % NODES_POLL_INTERVAL = 0)) ∧
    ((nthTickResult env N).log.schedule = true ↔
      (N = 1 ∨ N % SCHEDULE_POLL_INTERVAL = 0)) ∧
    telemetryFetchCount env N = N := by
  obtain ⟨m, rfl⟩ : ∃ m, N = m + 1 := ⟨N - 1, by omega⟩
  have hems : (nthTickResult env (m + 1)).log.ems = true := by
    rw [nthTickResult_succ]
    exact doTick_log_ems env (m + 1) _
  obtain ⟨hst, herl, hnd, hsc⟩ := nthTick_log_of_ok env m (hok m (by omega))
  refine ⟨hems, ?_, ?_, ?_, ?_, telemetryFetchCount_eq env (m + 1)⟩
  · rw [hst]; exact tier_fetch_iff env STATUS_POLL_INTERVAL m hok
  · rw [herl]; exact tier_fetch_iff env ERROR_REPORT_POLL_INTERVAL m hok
  · rw [hnd]; exact tier_fetch_iff env NODES_POLL_INTERVAL m hok
  · rw [hsc]; exact tier_fetch_iff env SCHEDULE_POLL_INTERVAL m hok

/-- Witness for C1 at the concrete healthy environment, N = 12. -/
theorem spec_c1_witness :
    (nthTickResult envGood 12).log.ems = true ∧
    ((nthTickResult envGood 12).log.status = true ↔
      (12 = 1 ∨ 12 % STATUS_POLL_INTERVAL = 0)) ∧
    ((nthTickResult envGood 12).log.error_report = true ↔
      (12 = 1 ∨ 12 % ERROR_REPORT_POLL_INTERVAL = 0)) ∧
    ((nthTickResult envGood 12).log.nodes = true ↔
      (12 = 1 ∨ 12 % NODES_POLL_INTERVAL = 0)) ∧
    ((nthTickResult envGood 12).log.schedule = true ↔
      (12 = 1 ∨ 12 % SCHEDULE_POLL_INTERVAL = 0)) ∧
    telemetryFetchCount envGood 12 = 12 :=
  spec_c1 envGood 12 (by omega) (by unfold TicksOk; decide)

/-- C4 counterexample: after 4 successful ticks the code has fetched
the error report twice (ticks 1 and 4), but the claimed formula
`1 + floor((N - 1)/4)` gives 1 at N = 4; the claim's own example
(N = 8 → ticks {1,4,8} → 3 fetches) also contradicts the formula,
which gives 2 there. -/
theorem spec_c4_counterexample :
    TicksOk envGood 4 ∧
    errorReportFetchCount envGood 4 = 2 ∧
    1 + (4 - 1) / 4 = 1 :=
  ⟨by unfold TicksOk; decide, by decide, by decide⟩

/-- C4 (amended): for every N ≥ 1 with all N ticks successful, the
error_report fetch count after N ticks equals `1 + floor(N/4)` —
fetches occur on tick 1 and on every tick divisible by 4, so N = 8
yields fetches on ticks {1, 4, 8}, i.e. 3 fetches. -/
theorem spec_c4 (env : Env) (N : Nat) (hN : 1 ≤ N) (hok : TicksOk env N) :
    errorReportFetchCount env N = 1 + N / 4 :=
  errorReportFetchCount_formula env N hN hok

/-- Witness for the amended C4 at the concrete healthy environment,
N = 8 (count 3 = 1 + 8/4). -/
theorem spec_c4_witness : errorReportFetchCount envGood 8 = 1 + 8 / 4 :=
  spec_c4 envGood 8 (by omega) (by unfold TicksOk; decide)

/-- C2 counterexample: on tick 1 of `envSchedAuth` the schedule
sub-fetch is performed (the tier is due) and raises
`HomevoltAuthError`, yet the tick does not abort with the
authentication-failed signal: it returns a snapshot, because the
schedule block catches every exception (coordinator.py line 100). -/
theorem spec_c2_counterexample :
    envSchedAuth.scheduleResult 1 = Except.error FetchError.authError ∧
    tierDue SCHEDULE_POLL_INTERVAL 1 none = true ∧
    isOkB (nthTickResult envSchedAuth 1).outcome = true :=
  ⟨rfl, rfl, by decide⟩

/-- C2 (amended): an `AuthError` raised by the telemetry, status,
error-report or node-inventory sub-fetch aborts the tick, propagates as
`ConfigEntryAuthFailed` (the "authentication failed" signal), and
leaves the stored snapshot unchanged (still null on tick 1, still the
prior value later); an `AuthError` raised by a per-node-metrics fetch
or by the schedule fetch is instead swallowed by those blocks'
catch-all handlers, so the tick completes with a snapshot. -/
theorem spec_c2 (env : Env) (st : CoordState) :
    (env.emsResult (st.poll_count + 1) = Except.error FetchError.authError →
      (updateStep env st).2.outcome = Except.error TickFailure.configEntryAuthFailed ∧
      (updateStep env st).1.data = st.data) ∧
    (∀ ems : HomevoltEmsResponse,
      env.emsResult (st.poll_count + 1) = Except.ok ems →
      tierDue STATUS_POLL_INTERVAL (st.poll_count + 1) st.data = true →
      env.statusResult (st.poll_count + 1) = Except.error FetchError.authError →
      (updateStep env st).2.outcome = Except.error TickFailure.configEntryAuthFailed ∧
      (updateStep env st).1.data = st.data) ∧
    (∀ (ems : HomevoltEmsResponse) (sv : Option HomevoltStatusResponse),
      env.emsResult (st.poll_count + 1) = Except.ok ems →
      fetchStatus env (st.poll_count + 1) st.data = Except.ok sv →
      tierDue ERROR_REPORT_POLL_INTERVAL (st.poll_count + 1) st.data = true →
      env.errorReportResult (st.poll_count + 1) = Except.error FetchError.authError →
      (updateStep env st).2.outcome = Except.error TickFailure.configEntryAuthFailed ∧
      (updateStep env st).1.data = st.data) ∧
    (∀ (ems : HomevoltEmsResponse) (sv : Option HomevoltStatusResponse)
        (ev : List ErrorReportEntry),
      env.emsResult (st.poll_count + 1) = Except.ok ems →
      fetchStatus env (st.poll_count + 1) st.data = Except.ok sv →
      fetchErrorReport env (st.poll_count + 1) st.data = Except.ok ev →
      tierDue NODES_POLL_INTERVAL (st.poll_count + 1) st.data = true →
      env.nodesResult (st.poll_count + 1) = Except.error FetchError.authError →
      (updateStep env st).2.outcome = Except.error TickFailure.configEntryAuthFailed ∧
      (updateStep env st).1.data = st.data) ∧
    (∀ (ems : HomevoltEmsResponse) (sv : Option HomevoltStatusResponse)
        (ev : List ErrorReportEntry)
        (nv : Option (List NodeInfo) × List (Int × NodeMetrics) × List Int),
      env.emsResult (st.poll_count + 1) = Except.ok ems →
      fetchStatus env (st.poll_count + 1) st.data = Except.ok sv →
      fetchErrorReport env (st.poll_count + 1) st.data = Except.ok ev →
      fetchNodes env (st.poll_count + 1) st.data ems = Except.ok nv →
      ∃ d, (updateStep env st).2.outcome = Except.ok d) := by
  refine ⟨?_, ?_, ?_, ?_, ?_⟩
  · intro he
    have ht := doTick_err_ems env (st.poll_count + 1) st.data he
    constructor
    · show (doTick env (st.poll_count + 1) st.data).outcome = _
      rw [ht]
      rfl
    · show (match (doTick env (st.poll_count + 1) st.data).outcome with
        | Except.ok d => some d
        | Except.error _ => st.data) = st.data
      rw [ht]
  · intro ems he hdue hserr
    have hs' : fetchStatus env (st.poll_count + 1) st.data
        = Except.error FetchError.authError := by
      simp [fetchStatus, hdue, hserr, Except.map]
    have ht := doTick_err_status env (st.poll_count + 1) st.data he hs'
    constructor
    · show (doTick env (st.poll_count + 1) st.data).outcome = _
      rw [ht]
      rfl
    · show (match (doTick env (st.poll_count + 1) st.data).outcome with
        | Except.ok d => some d
        | Except.error _ => st.data) = st.data
      rw [ht]
  · intro ems sv he hs hdue hererr
    have her' : fetchErrorReport env (st.poll_count + 1) st.data
        = Except.error FetchError.authError := by
      simp [fetchErrorReport, hdue, hererr]
    have ht := doTick_err_er env (st.poll_count + 1) st.data he hs her'
    constructor
    · show (doTick env (st.poll_count + 1) st.data).outcome = _
      rw [ht]
      rfl
    · show (match (doTick env (st.poll_count + 1) st.data).outcome with
        | Except.ok d => some d
        | Except.error _ => st.data) = st.data
      rw [ht]
  · intro ems sv ev he hs her hdue hnerr
    have hn' : fetchNodes env (st.poll_count + 1) st.data ems
        = Except.error FetchError.authError := by
      simp [fetchNodes, hdue, hnerr]
    have ht := doTick_err_nodes env (st.poll_count + 1) st.data he hs her hn'
    constructor
    · show (doTick env (st.poll_count + 1) st.data).outcome = _
      rw [ht]
      rfl
    · show (match (doTick env (st.poll_count + 1) st.data).outcome with
        | Except.ok d => some d
        | Except.error _ => st.data) = st.data
      rw [ht]
  · intro ems sv ev nv he hs her hn
    refine ⟨⟨ems, sv, ev, nv.1, nv.2.1,
      fetchSchedule env (st.poll_count + 1) st.data⟩, ?_⟩
    show (doTick env (st.poll_count + 1) st.data).outcome = _
    rw [doTick_eq_of_ok env (st.poll_count + 1) st.data he hs her hn]

/-- Witness for the amended C2: telemetry 401 on tick 1 aborts with the
auth signal and leaves the (null) snapshot unchanged. -/
theorem spec_c2_witness :
    (updateStep envAuthErr initialState).2.outcome
        = Except.error TickFailure.configEntryAuthFailed ∧
    (updateStep envAuthErr initialState).1.data = initialState.data :=
  (spec_c2 envAuthErr initialState).1 rfl

/-- C3: on every successful tick the coordinator compares the previous
snapshot's aggregated alarm, warning and info string-lists against the
new telemetry's, by value and independently; for each field, the events
fired under that field's name are exactly one event carrying the
previous and current value when the field differs, and none when it is
unchanged; no event at all is fired on the very first tick (previous
snapshot null). -/
theorem spec_c3 (env : Env) (n : Nat) (dp : Option HomevoltData)
    (d' : HomevoltData) (hok : (doTick env n dp).outcome = Except.ok d') :
    (dp = none → (doTick env n dp).events = []) ∧
    (∀ d, dp = some d →
      ((doTick env n dp).events.filter (fun e => e.name == "homevolt_alarm")
        = if d.ems.aggregated.ems_data.alarm_str
              = d'.ems.aggregated.ems_data.alarm_str then []
          else [⟨"homevolt_alarm", d.ems.aggregated.ems_data.alarm_str,
                 d'.ems.aggregated.ems_data.alarm_str⟩]) ∧
      ((doTick env n dp).events.filter (fun e => e.name == "homevolt_warning")
        = if d.ems.aggregated.ems_data.warning_str
              = d'.ems.aggregated.ems_data.warning_str then []
          else [⟨"homevolt_warning", d.ems.aggregated.ems_data.warning_str,
                 d'.ems.aggregated.ems_data.warning_str⟩]) ∧
      ((doTick env n dp).events.filter (fun e => e.name == "homevolt_info")
        = if d.ems.aggregated.ems_data.info_str
              = d'.ems.aggregated.ems_data.info_str then []
          else [⟨"homevolt_info", d.ems.aggregated.ems_data.info_str,
                 d'.ems.aggregated.ems_data.info_str⟩])) := by
  obtain ⟨ems, sv, ev, nv, he, hs, her, hn, hd⟩ := doTick_ok_inv env n dp d' hok
  have heq := doTick_eq_of_ok env n dp he hs her hn
  subst hd
  constructor
  · intro hnone
    subst hnone
    rw [heq]
    rfl
  · intro d hdp
    subst hdp
    rw [heq]
    by_cases h1 : d.ems.aggregated.ems_data.alarm_str
        = ems.aggregated.ems_data.alarm_str <;>
      by_cases h2 : d.ems.aggregated.ems_data.warning_str
          = ems.aggregated.ems_data.warning_str <;>
        by_cases h3 : d.ems.aggregated.ems_data.info_str
            = ems.aggregated.ems_data.info_str <;>
          simp [computeEvents, h1, h2, h3, List.filter_append, List.filter_cons,
            beq_wa, beq_ia, beq_aw, beq_iw, beq_ai, beq_wi, beq_aa, beq_ww, beq_ii]

/-- Witness for C3: tick 2 of `envGood` from previous snapshot `dpA`
(no alarms) fetches `emsB` (alarm raised): exactly one alarm event with
previous `[]` and current `["BMS_OVER_VOLTAGE"]`. -/
theorem spec_c3_witness :
    (doTick envGood 2 (some dpA)).outcome = Except.ok tick2B ∧
    ((doTick envGood 2 (some dpA)).events.filter
        (fun e => e.name == "homevolt_alarm")
      = [⟨"homevolt_alarm", [], ["BMS_OVER_VOLTAGE"]⟩]) := by
  have h := spec_c3 envGood 2 (some dpA) tick2B (by decide)
  refine ⟨by decide, ?_⟩
  have h2 := (h.2 dpA rfl).1
  rw [h2]
  decide

/-- C8: on a successful tick with a previous snapshot, each tier that is
not due is carried forward: the new snapshot's field equals the previous
snapshot's field for every environment (capturing Python's
reference-identity copy `combined.X = self.data.X` — no fresh value can
enter, as the fetch log confirms the endpoint was not called). -/
theorem spec_c8 (env : Env) (n : Nat) (d d' : HomevoltData)
    (hok : (doTick env n (some d)).outcome = Except.ok d') :
    (¬ n % STATUS_POLL_INTERVAL = 0 →
      d'.status = d.status ∧ (doTick env n (some d)).log.status = false) ∧
    (¬ n % ERROR_REPORT_POLL_INTERVAL = 0 →
      d'.error_report = d.error_report ∧
      (doTick env n (some d)).log.error_report = false) ∧
    (¬ n % NODES_POLL_INTERVAL = 0 →
      d'.nodes = d.nodes ∧ d'.node_metrics = d.node_metrics ∧
      (doTick env n (some d)).log.nodes = false) ∧
    (¬ n % SCHEDULE_POLL_INTERVAL = 0 →
      d'.schedule = d.schedule ∧ (doTick env n (some d)).log.schedule = false) := by
  obtain ⟨ems, sv, ev, nv, he, hs, her, hn, hd⟩ := doTick_ok_inv env n (some d) d' hok
  have heq := doTick_eq_of_ok env n (some d) he hs her hn
  subst hd
  refine ⟨?_, ?_, ?_, ?_⟩
  · intro hP
    have hdue := tierDue_some_ne STATUS_POLL_INTERVAL n d hP
    have hfs : fetchStatus env n (some d) = Except.ok d.status := by
      simp [fetchStatus, hdue]
    rw [hfs] at hs
    have hsv : d.status = sv := by injection hs
    exact ⟨hsv.symm, by rw [heq]; exact hdue⟩
  · intro hP
    have hdue := tierDue_some_ne ERROR_REPORT_POLL_INTERVAL n d hP
    have hfe : fetchErrorReport env n (some d) = Except.ok d.error_report := by
      simp [fetchErrorReport, hdue]
    rw [hfe] at her
    have hev : d.error_report = ev := by injection her
    exact ⟨hev.symm, by rw [heq]; exact hdue⟩
  · intro hP
    have hdue := tierDue_some_ne NODES_POLL_INTERVAL n d hP
    have hfn : fetchNodes env n (some d) ems
        = Except.ok (d.nodes, d.node_metrics, []) := by
      simp [fetchNodes, hdue]
    rw [hfn] at hn
    have hnv : (d.nodes, d.node_metrics, ([] : List Int)) = nv := by injection hn
    subst hnv
    exact ⟨rfl, rfl, by rw [heq]; exact hdue⟩
  · intro hP
    have hdue := tierDue_some_ne SCHEDULE_POLL_INTERVAL n d hP
    constructor
    · show fetchSchedule env n (some d) = d.schedule
      simp [fetchSchedule, hdue]
    · rw [heq]; exact hdue

/-- Witness for C8: tick 2 of `envGood` (no tier due) carries every
tier field of `dpA` into `tick2B` unchanged. -/
theorem spec_c8_witness :
    tick2B.status = dpA.status ∧ tick2B.error_report = dpA.error_report ∧
    tick2B.nodes = dpA.nodes ∧ tick2B.node_metrics = dpA.node_metrics ∧
    tick2B.schedule = dpA.schedule := by
  have h := spec_c8 envGood 2 dpA tick2B (by decide)
  exact ⟨(h.1 (by decide)).1, (h.2.1 (by decide)).1, (h.2.2.1 (by decide)).1,
    (h.2.2.1 (by decide)).2.1, (h.2.2.2 (by decide)).1⟩

/-- C5: on a tick where the node tier is due and the telemetry, status,
error-report and node-inventory fetches succeed, the tick succeeds
regardless of per-node metrics failures, the snapshot holds the fresh
inventory, the metrics endpoint is called exactly for the qualifying
sensors (euid non-empty, not all-zero, node id non-zero), in order, and
the metrics map holds exactly the node ids of qualifying sensors whose
individual fetch succeeded — a node whose fetch failed is simply
omitted, without affecting the tick, the inventory, or any other
node's entry. -/
theorem spec_c5 (env : Env) (n : Nat) (dp : Option HomevoltData)
    (ems : HomevoltEmsResponse) (stv : HomevoltStatusResponse)
    (erv : List ErrorReportEntry) (ns : List NodeInfo)
    (he : env.emsResult n = Except.ok ems)
    (hs : env.statusResult n = Except.ok stv)
    (her : env.errorReportResult n = Except.ok erv)
    (hdue : tierDue NODES_POLL_INTERVAL n dp = true)
    (hns : env.nodesResult n = Except.ok ns) :
    ∃ d', (doTick env n dp).outcome = Except.ok d' ∧
      d'.nodes = some ns ∧
      (doTick env n dp).log.nodeMetricsCalls
        = (ems.sensors.filter qualifying).map (fun s => s.node_id) ∧
      ∀ k : Int,
        mlookup d'.node_metrics k =
          (if ems.sensors.any (fun s => qualifying s && s.node_id == k) then
            (match env.nodeMetricsResult n k with
              | .ok m => some m
              | .error _ => none)
          else none) := by
  obtain ⟨sv, hs'⟩ := fetchStatus_ok env n dp hs
  obtain ⟨ev, her'⟩ := fetchErrorReport_ok env n dp her
  have hn' := fetchNodes_due env n dp ems hdue hns
  have heq := doTick_eq_of_ok env n dp he hs' her' hn'
  refine ⟨⟨ems, sv, ev, some ns, (fetchMetricsLoop env n ems.sensors []).1,
    fetchSchedule env n dp⟩, ?_, rfl, ?_, ?_⟩
  · rw [heq]
  · rw [heq]
    exact fetchMetricsLoop_calls env n ems.sensors []
  · intro k
    show mlookup (fetchMetricsLoop env n ems.sensors []).1 k = _
    rw [fetchMetricsLoop_lookup]
    simp [mlookup]

/-- Witness for C5 on tick 1 of `envGood` (node tier due, one
qualifying sensor with node id 2). -/
theorem spec_c5_witness :
    ∃ d', (doTick envGood 1 none).outcome = Except.ok d' ∧
      d'.nodes = some [{ node_id := 2 }] ∧
      (doTick envGood 1 none).log.nodeMetricsCalls
        = (emsA.sensors.filter qualifying).map (fun s => s.node_id) ∧
      ∀ k : Int,
        mlookup d'.node_metrics k =
          (if emsA.sensors.any (fun s => qualifying s && s.node_id == k) then
            (match envGood.nodeMetricsResult 1 k with
              | .ok m => some m
              | .error _ => none)
          else none) :=
  spec_c5 envGood 1 none emsA {} [] [{ node_id := 2 }] rfl rfl rfl rfl rfl

/-- C6: on a tick where the schedule tier is due and the schedule fetch
fails (with any failure kind, including auth), while the four
fatal-capable fetches succeed, the tick still succeeds — the failure
never propagates out of the tick — and the new snapshot carries forward
the previous snapshot's schedule value, or leaves schedule null when no
previous snapshot existed. -/
theorem spec_c6 (env : Env) (n : Nat) (dp : Option HomevoltData)
    (ems : HomevoltEmsResponse) (stv : HomevoltStatusResponse)
    (erv : List ErrorReportEntry) (ns : List NodeInfo) (e : FetchError)
    (he : env.emsResult n = Except.ok ems)
    (hs : env.statusResult n = Except.ok stv)
    (her : env.errorReportResult n = Except.ok erv)
    (hn : env.nodesResult n = Except.ok ns)
    (hdue : tierDue SCHEDULE_POLL_INTERVAL n dp = true)
    (hfail : env.scheduleResult n = Except.error e) :
    ∃ d', (doTick env n dp).outcome = Except.ok d' ∧
      d'.schedule = (match dp with
        | some d => d.schedule
        | none => none) ∧
      (doTick env n dp).log.schedule = true := by
  obtain ⟨sv, hs'⟩ := fetchStatus_ok env n dp hs
  obtain ⟨ev, her'⟩ := fetchErrorReport_ok env n dp her
  obtain ⟨nv, hn'⟩ := fetchNodes_ok env n dp ems hn
  have heq := doTick_eq_of_ok env n dp he hs' her' hn'
  refine ⟨⟨ems, sv, ev, nv.1, nv.2.1, fetchSchedule env n dp⟩, ?_, ?_, ?_⟩
  · rw [heq]
  · show fetchSchedule env n dp = _
    unfold fetchSchedule
    rw [if_pos hdue, hfail]
    cases dp <;> rfl
  · rw [heq]
    exact hdue

/-- Witness for C6 on tick 1 of `envSchedAuth` (schedule due, schedule
fetch raising an auth error, no previous snapshot → schedule null). -/
theorem spec_c6_witness :
    ∃ d', (doTick envSchedAuth 1 none).outcome = Except.ok d' ∧
      d'.schedule = (match (none : Option HomevoltData) with
        | some d => d.schedule
        | none => none) ∧
      (doTick envSchedAuth 1 none).log.schedule = true :=
  spec_c6 envSchedAuth 1 none emsA {} [] [{ node_id := 2 }]
    FetchError.authError rfl rfl rfl rfl rfl rfl

/-- C7: every transport request makes at most 3 attempts; its sleeps
are exactly `2^(i+1)` for the non-final attempts made (2 s after
attempt 1, 4 s after attempt 2, never after the final attempt); a 401
reached on any attempt (all earlier attempts having been retryable)
raises the authentication error immediately with no further attempt;
and when all three attempts are retryable — server statuses 502/503/504
and connection-level failures consuming the same budget — the call
makes exactly 3 attempts, sleeps [2, 4], and raises the generic API
error when the final attempt was a server status, or the connection
error when it was a connection failure. -/
theorem spec_c7 (o : Nat → AttemptOutcome) :
    (requestRun o).attemptsMade ≤ 3 ∧
    (requestRun o).sleeps
      = (List.range ((requestRun o).attemptsMade - 1)).map
          (fun i => BACKOFF_BASE ^ (i + 1)) ∧
    (∀ k, k < 3 → (∀ j, j < k → retryable (o j) = true) →
      o k = AttemptOutcome.status 401 →
      (requestRun o).result = ReqResult.authError ∧
        (requestRun o).attemptsMade = k + 1) ∧
    ((∀ j, j < 3 → retryable (o j) = true) →
      (requestRun o).attemptsMade = 3 ∧ (requestRun o).sleeps = [2, 4] ∧
      (∀ c, o 2 = AttemptOutcome.status c →
        (requestRun o).result = ReqResult.apiError c) ∧
      (o 2 = AttemptOutcome.connError →
        (requestRun o).result = ReqResult.connectionError)) := by
  refine ⟨requestRun_attempts_le o, requestRun_sleeps o, requestRun_auth o, ?_⟩
  intro h
  have hall := requestRun_all_retryable o h
  rw [hall]
  refine ⟨rfl, rfl, ?_, ?_⟩
  · intro c hc
    rw [hc]
  · intro hc
    rw [hc]

/-- Witness for C7: three consecutive 503 responses exhaust the budget
with sleeps [2, 4] and raise the generic API error. -/
theorem spec_c7_witness :
    (requestRun (fun _ => AttemptOutcome.status 503)).attemptsMade = 3 ∧
    (requestRun (fun _ => AttemptOutcome.status 503)).sleeps = [2, 4] ∧
    (requestRun (fun _ => AttemptOutcome.status 503)).result
      = ReqResult.apiError 503 := by
  have h := (spec_c7 (fun _ => AttemptOutcome.status 503)).2.2.2 (by decide)
  exact ⟨h.1, h.2.1, h.2.2.1 503 rfl⟩

/-- C10 counterexample: 304 is not 2xx, not 401 and not a retryable
status, yet a first-attempt 304 does not raise the HTTP-status
exception: `_request` returns the body, because `resp.raise_for_status()`
only raises for statuses ≥ 400. -/
theorem spec_c10_counterexample :
    (304 : Nat) ≠ 401 ∧ isRetryStatus 304 = false ∧
    ¬(200 ≤ 304 ∧ 304 < 300) ∧
    requestRun (fun _ => AttemptOutcome.status 304)
      = ⟨ReqResult.success 0, [], 1⟩ :=
  ⟨by omega, by decide, by omega, by decide⟩

/-- C10 (amended): for any HTTP status ≥ 400 outside the handled set
(not 401, not 502/503/504) — e.g. 404 or 500 — `_request` raises the
unwrapped HTTP-status exception from `resp.raise_for_status()` on the
first attempt, with no retry, no sleep, and no wrapping into the auth,
connection or generic API error; and such an exception, being neither
`HomevoltAuthError` nor `HomevoltConnectionError`, propagates out of
the coordinator tick uncaught by its two handlers. (Statuses below 400
outside 2xx, e.g. 304, do not raise — the correction.) -/
theorem spec_c10 (o : Nat → AttemptOutcome) (c : Nat)
    (hge : 400 ≤ c) (h401 : c ≠ 401) (hrs : isRetryStatus c = false)
    (h0 : o 0 = AttemptOutcome.status c) :
    requestRun o = ⟨ReqResult.httpStatusError c, [], 1⟩ ∧
    ∀ (env : Env) (n : Nat) (dp : Option HomevoltData),
      env.emsResult n = Except.error FetchError.otherError →
      (doTick env n dp).outcome
        = Except.error (TickFailure.uncaught FetchError.otherError) := by
  constructor
  · have hb : (c == 401) = false := beq_eq_false_iff_ne.mpr h401
    have hstep : stepFor o 0 = StepRes.done (ReqResult.httpStatusError c) := by
      simp [stepFor, h0, hb, hrs, hge]
    rw [requestRun_eq_list]
    simp only [runFrom, hstep]
  · intro env n dp he
    rw [doTick_err_ems env n dp he]
    rfl

/-- Witness for the amended C10 at status 404 and an environment whose
telemetry fetch raises the unwrapped (other) exception. -/
theorem spec_c10_witness :
    requestRun (fun _ => AttemptOutcome.status 404)
        = ⟨ReqResult.httpStatusError 404, [], 1⟩ ∧
    (doTick envOther 1 none).outcome
        = Except.error (TickFailure.uncaught FetchError.otherError) :=
  ⟨(spec_c10 (fun _ => AttemptOutcome.status 404) 404 (by omega) (by omega)
      (by decide) rfl).1,
   (spec_c10 (fun _ => AttemptOutcome.status 404) 404 (by omega) (by omega)
      (by decide) rfl).2 envOther 1 none rfl⟩

end Homevolt
